import Mathlib

/-!
# wiproGadget.go: a shallow embedding of the Gadget chaincode

The chaincode is a set of handlers over `shim.ChaincodeStubInterface`.  The
ledger behind the stub, `encoding/json` and `time` are libraries outside the
repository: the handlers below are written against an interface record for
the stub (`ChaincodeStub`), a record for the two JSON calls (`Json`) and a
function rendering a timestamp.  Go strings and byte slices are Lean
strings, that is, sequences of Unicode code points: the theorems speak of
arguments that are valid UTF-8.  A byte slice that may be `nil` is an
`Option String`.
-/

namespace WiproGadget

/-! ## Data model -/

/-- The Gadget structure, with 4 properties (wiproGadget.go, lines 47-52). -/
structure Gadget where
  Make : String
  Model : String
  Colour : String
  Owner : String
  deriving DecidableEq, Repr

/-- The zero value `Gadget{}`. -/
def Gadget.zero : Gadget := ⟨"", "", "", ""⟩

/-- The response of a handler (`sc.Response`): status, message and payload. -/
structure Response where
  Status : Nat
  Message : String
  Payload : Option String
  deriving DecidableEq, Repr

namespace shim

/-- Status code of `shim.Success`. -/
def OK : Nat := 200

/-- Status code of `shim.Error`. -/
def ERROR : Nat := 500

/-- Go `shim.Success(payload)`. -/
def Success (payload : Option String) : Response :=
  { Status := OK, Message := "", Payload := payload }

/-- Go `shim.Error(msg)`. -/
def Error (msg : String) : Response :=
  { Status := ERROR, Message := msg, Payload := none }

end shim

/-- One result of a range iterator (`queryresult.KV`). -/
structure KV where
  Key : String
  Value : String
  deriving DecidableEq, Repr

/-- A ledger timestamp: seconds and nanoseconds. -/
structure Timestamp where
  Seconds : Int
  Nanos : Int
  deriving DecidableEq, Repr

/-- One result of a history iterator (`queryresult.KeyModification`). -/
structure KeyModification where
  TxId : String
  Value : String
  Timestamp : Timestamp
  IsDelete : Bool
  deriving DecidableEq, Repr

/-- An iterator handed out by the ledger, as the finite sequence of outcomes
of its successive `Next` calls while `HasNext` holds: a result, or the error
message of a failed call. -/
abbrev Iterator (α : Type) := List (Except String α)

/-- The part of `shim.ChaincodeStubInterface` the chaincode calls, over a
ledger state `σ`.  A read returns the Go pair (value, error); a write returns
the state after the call and the error, if any. -/
structure ChaincodeStub (σ : Type) where
  GetState : σ → String → Option String × Option String
  PutState : σ → String → String → σ × Option String
  DelState : σ → String → σ × Option String
  GetStateByRange : σ → String → String → Except String (Iterator KV)
  GetHistoryForKey : σ → String → Except String (Iterator KeyModification)

/-- The two `encoding/json` calls of the chaincode on a `Gadget`.
`Marshal` gives the bytes (the chaincode drops its error); `Unmarshal data g`
gives the destination `g` after the call and the error, if any. -/
structure Json where
  Marshal : Gadget → String
  Unmarshal : String → Gadget → Gadget × Option String

/-- Go `strconv.Itoa` on a non-negative integer. -/
def Itoa (i : Nat) : String := Nat.repr i

/-- Go `strconv.FormatBool`. -/
def FormatBool (b : Bool) : String := if b then "true" else "false"

/-- The bytes of a possibly-nil slice: `nil` has no bytes. -/
def bytesOf (b : Option String) : String := b.getD ""

/-! ## The handlers (wiproGadget.go, lines 66-295)

Every handler takes the stub and the ledger state before the call and returns
the response together with the ledger state after the call.  `args[i]` is
`args.getD i ""`: each use is behind the handler's length check. -/

section Handlers

variable {σ : Type}

/-- Go `queryGadget` (lines 90-98). -/
def queryGadget (stub : ChaincodeStub σ) (s : σ) (args : List String) : Response × σ :=
  if args.length ≠ 1 then
    (shim.Error "Incorrect number of arguments. Expecting 1", s)
  else
    let gadgetAsBytes := (stub.GetState s (args.getD 0 "")).1
    (shim.Success gadgetAsBytes, s)

/-- The fixed sample set of `initLedger` (lines 101-110). -/
def gadgets : List Gadget :=
  [ { Make := "Samsung", Model := "GalS10", Colour := "blue", Owner := "Shyam" },
    { Make := "Apple", Model := "Ipod", Colour := "black", Owner := "Sravan" },
    { Make := "Apple", Model := "AirMac", Colour := "Silver", Owner := "Pavan" },
    { Make := "Sony", Model := "Bravia10", Colour := "Black", Owner := "Karthick" },
    { Make := "SkullCandy", Model := "EarPhones", Colour := "black", Owner := "Jhon" },
    { Make := "Nokia", Model := "N72", Colour := "Black", Owner := "Lalitha" },
    { Make := "MI", Model := "MI20", Colour := "Gray", Owner := "Jack" },
    { Make := "Samsung", Model := "GalS10Plus", Colour := "DarkBlack", Owner := "Akram" } ]

/-- The loop of `initLedger` (lines 112-119), entered with the index `i` and
the records `gadgets[i:]` still to be written. -/
def initLedgerLoop (J : Json) (stub : ChaincodeStub σ) : List Gadget → Nat → σ → σ
  | [], _, s => s
  | g :: rest, i, s =>
    let gadgetAsBytes := J.Marshal g
    let s := (stub.PutState s ("GADGET" ++ Itoa i) gadgetAsBytes).1
    initLedgerLoop J stub rest (i + 1) s

/-- Go `initLedger` (lines 100-122). -/
def initLedger (J : Json) (stub : ChaincodeStub σ) (s : σ) : Response × σ :=
  let s := initLedgerLoop J stub gadgets 0 s
  (shim.Success none, s)

/-- Go `createGadget` (lines 125-137). -/
def createGadget (J : Json) (stub : ChaincodeStub σ) (s : σ) (args : List String) :
    Response × σ :=
  if args.length ≠ 5 then
    (shim.Error "Incorrect number of arguments. Expecting 5", s)
  else
    let gadget : Gadget :=
      { Make := args.getD 1 "", Model := args.getD 2 "", Colour := args.getD 3 "",
        Owner := args.getD 4 "" }
    let gadgetAsBytes := J.Marshal gadget
    let s := (stub.PutState s (args.getD 0 "") gadgetAsBytes).1
    (shim.Success none, s)

/-- The loop of `queryAllGadgets` (lines 156-176) over the outcomes of the
iterator, carrying the buffer and the flag `bArrayMemberAlreadyWritten`.  A
failed `Next` leaves the loop with the error. -/
def queryAllLoop : Iterator KV → String → Bool → Except String String
  | [], buffer, _ => .ok buffer
  | .error err :: _, _, _ => .error err
  | .ok queryResponse :: rest, buffer, bArrayMemberAlreadyWritten =>
    let buffer := if bArrayMemberAlreadyWritten = true then buffer ++ "," else buffer
    let buffer := buffer ++ "\x7b\"Key\":"
    let buffer := buffer ++ "\""
    let buffer := buffer ++ queryResponse.Key
    let buffer := buffer ++ "\""
    let buffer := buffer ++ ", \"Record\":"
    let buffer := buffer ++ queryResponse.Value
    let buffer := buffer ++ "\x7d"
    queryAllLoop rest buffer true

/-- Go `queryAllGadgets` (lines 141-182). -/
def queryAllGadgets (stub : ChaincodeStub σ) (s : σ) : Response × σ :=
  let startKey := "GADGET0"
  let endKey := "GADGET999"
  match stub.GetStateByRange s startKey endKey with
  | .error err => (shim.Error err, s)
  | .ok resultsIterator =>
    match queryAllLoop resultsIterator "[" false with
    | .error err => (shim.Error err, s)
    | .ok buffer => (shim.Success (some (buffer ++ "]")), s)

/-- Go `changeGadgetOwner` (lines 186-202). -/
def changeGadgetOwner (J : Json) (stub : ChaincodeStub σ) (s : σ) (args : List String) :
    Response × σ :=
  if args.length ≠ 2 then
    (shim.Error "Incorrect number of arguments. Expecting 2", s)
  else
    let gadgetAsBytes := (stub.GetState s (args.getD 0 "")).1
    let gadget := Gadget.zero
    let gadget := (J.Unmarshal (bytesOf gadgetAsBytes) gadget).1
    let gadget := { gadget with Owner := args.getD 1 "" }
    let gadgetAsBytes := J.Marshal gadget
    let s := (stub.PutState s (args.getD 0 "") gadgetAsBytes).1
    (shim.Success none, s)

/-- The loop of `getGadgetHistory` (lines 226-258); `timeString` is
`time.Unix(seconds, nanos).String()`. -/
def historyLoop (timeString : Int → Int → String) :
    Iterator KeyModification → String → Bool → Except String String
  | [], buffer, _ => .ok buffer
  | .error err :: _, _, _ => .error err
  | .ok response :: rest, buffer, bArrayMemberAlreadyWritten =>
    let buffer := if bArrayMemberAlreadyWritten = true then buffer ++ "," else buffer
    let buffer := buffer ++ "\x7b\"TxId\":"
    let buffer := buffer ++ "\""
    let buffer := buffer ++ response.TxId
    let buffer := buffer ++ "\""
    let buffer := buffer ++ ", \"Value\":"
    let buffer := if response.IsDelete then buffer ++ "null" else buffer ++ response.Value
    let buffer := buffer ++ ", \"Timestamp\":"
    let buffer := buffer ++ "\""
    let buffer := buffer ++ timeString response.Timestamp.Seconds response.Timestamp.Nanos
    let buffer := buffer ++ "\""
    let buffer := buffer ++ ", \"IsDelete\":"
    let buffer := buffer ++ "\""
    let buffer := buffer ++ FormatBool response.IsDelete
    let buffer := buffer ++ "\""
    let buffer := buffer ++ "\x7d"
    historyLoop timeString rest buffer true

/-- Go `getGadgetHistory` (lines 209-265). -/
def getGadgetHistory (timeString : Int → Int → String) (stub : ChaincodeStub σ) (s : σ)
    (args : List String) : Response × σ :=
  if args.length < 1 then
    (shim.Error "Incorrect number of arguments. Expecting 1", s)
  else
    let gadgetID := args.getD 0 ""
    match stub.GetHistoryForKey s gadgetID with
    | .error err => (shim.Error err, s)
    | .ok resultsIterator =>
      match historyLoop timeString resultsIterator "[" false with
      | .error err => (shim.Error err, s)
      | .ok buffer => (shim.Success (some (buffer ++ "]")), s)

/-- Go `deleteGadget` (lines 268-295). -/
def deleteGadget (J : Json) (stub : ChaincodeStub σ) (s : σ) (args : List String) :
    Response × σ :=
  if args.length ≠ 1 then
    (shim.Error "Incorrect number of arguments. Expecting 1", s)
  else
    let gadgetID := args.getD 0 ""
    let (valAsbytes, err) := stub.GetState s gadgetID
    if err ≠ none then
      (shim.Error ("\x7b\"Error\":\"Failed to get state for " ++ gadgetID ++ "\"\x7d"), s)
    else if valAsbytes = none then
      (shim.Error ("\x7b\"Error\":\"gadget does not exist: " ++ gadgetID ++ "\"\x7d"), s)
    else
      let err := (J.Unmarshal (bytesOf valAsbytes) Gadget.zero).2
      if err ≠ none then
        (shim.Error ("\x7b\"Error\":\"Failed to decode JSON of: " ++ gadgetID ++ "\"\x7d"), s)
      else
        match stub.DelState s gadgetID with
        | (s, some err) => (shim.Error ("Failed to delete state:" ++ err), s)
        | (s, none) => (shim.Success none, s)

/-- Go `Invoke` (lines 66-88); `function` and `args` are what
`APIstub.GetFunctionAndParameters()` returns. -/
def Invoke (J : Json) (timeString : Int → Int → String) (stub : ChaincodeStub σ) (s : σ)
    (function : String) (args : List String) : Response × σ :=
  if function = "queryGadget" then
    queryGadget stub s args
  else if function = "initLedger" then
    initLedger J stub s
  else if function = "createGadget" then
    createGadget J stub s args
  else if function = "queryAllGadgets" then
    queryAllGadgets stub s
  else if function = "changeGadgetOwner" then
    changeGadgetOwner J stub s args
  else if function = "getGadgetHistory" then
    getGadgetHistory timeString stub s args
  else if function = "deleteGadget" then
    deleteGadget J stub s args
  else
    (shim.Error "Invalid Smart Contract function name.", s)

end Handlers

/-! ## A reliable in-memory ledger

The ledger is outside the repository.  State claims are stated over this
model of it: the current values as an association list read at the first
entry of a key, and one change log for all keys, oldest entry first.  A put
or a delete that is carried out appends one change-log entry for its key,
stamped with the transaction the call runs in.  Every call succeeds but a put
under the empty key, which the shim refuses. -/

/-- Current values and change log of the in-memory ledger. -/
structure Ledger where
  State : List (String × String)
  History : List (String × KeyModification)
  deriving DecidableEq, Repr

/-- The current value of a key, `none` when it has none. -/
def Ledger.get (l : Ledger) (key : String) : Option String :=
  l.State.lookup key

/-- The change log of a key, oldest entry first. -/
def Ledger.historyOf (l : Ledger) (key : String) : List KeyModification :=
  (l.History.filter (fun e => e.1 = key)).map (fun e => e.2)

/-- The ledger after a put in transaction `txId` at time `ts`. -/
def Ledger.put (txId : String) (ts : Timestamp) (l : Ledger) (key value : String) : Ledger :=
  { State := (key, value) :: l.State.filter (fun p => p.1 ≠ key),
    History := l.History ++
      [(key, { TxId := txId, Value := value, Timestamp := ts, IsDelete := false })] }

/-- The ledger after a delete in transaction `txId` at time `ts`. -/
def Ledger.del (txId : String) (ts : Timestamp) (l : Ledger) (key : String) : Ledger :=
  { State := l.State.filter (fun p => p.1 ≠ key),
    History := l.History ++
      [(key, { TxId := txId, Value := "", Timestamp := ts, IsDelete := true })] }

/-- Lexicographic order on character sequences.  Go compares strings byte by
byte, which on UTF-8 text is the order of the code points. -/
def ltChars : List Char → List Char → Bool
  | _, [] => false
  | [], _ :: _ => true
  | a :: as, b :: bs =>
    if a.toNat < b.toNat then true
    else if a = b then ltChars as bs
    else false

/-- The key order of the ledger, strict. -/
def keyLt (a b : String) : Bool := ltChars a.data b.data

/-- The key order of the ledger. -/
def keyLe (a b : String) : Bool := !keyLt b a

/-- Insert a pair into a key-ordered list, taking the place of a pair with
the same key. -/
def insertKey (p : KV) : List KV → List KV
  | [] => [p]
  | q :: qs =>
    if keyLt p.Key q.Key then p :: q :: qs
    else if p.Key = q.Key then p :: qs
    else q :: insertKey p qs

/-- The current values in key order, one pair per key (the first entry of a
key is its current value). -/
def sortByKey : List (String × String) → List KV
  | [] => []
  | (k, v) :: rest => insertKey { Key := k, Value := v } (sortByKey rest)

/-- The pairs a range query over `[startKey, endKey)` delivers, in key order. -/
def Ledger.range (l : Ledger) (startKey endKey : String) : List KV :=
  (sortByKey l.State).filter (fun p => keyLe startKey p.Key && keyLt p.Key endKey)

/-- The stub of a transaction `txId` at time `ts` over the in-memory ledger.
As the shim does, `PutState` refuses the empty key with the error
"key must not be an empty string" and writes nothing. -/
def memStub (txId : String) (ts : Timestamp) : ChaincodeStub Ledger where
  GetState := fun l key => (l.get key, none)
  PutState := fun l key value =>
    if key = "" then (l, some "key must not be an empty string")
    else (l.put txId ts key value, none)
  DelState := fun l key => (l.del txId ts key, none)
  GetStateByRange := fun l startKey endKey => .ok ((l.range startKey endKey).map .ok)
  GetHistoryForKey := fun l key => .ok ((l.historyOf key).map .ok)

/-- The ledger with no current value and no history. -/
def Ledger.empty : Ledger := { State := [], History := [] }

/-! ## A reference JSON codec

A small instance of `Json` for closed examples: `Marshal` writes the four
fields as a JSON object in declaration order, escaping the quote and the
backslash; `Unmarshal` reads such an object and fails on anything else,
leaving the destination as it was. -/

/-- Escape the quote and the backslash. -/
def escape : List Char → List Char
  | [] => []
  | c :: cs => if c = '"' ∨ c = '\\' then '\\' :: c :: escape cs else c :: escape cs

/-- A string as a JSON string literal. -/
def quote (s : String) : String := "\"" ++ String.mk (escape s.data) ++ "\""

/-- Read a string literal after its opening quote: the string and the rest. -/
def readString : List Char → List Char → Option (String × List Char)
  | [], _ => none
  | c :: rest, acc =>
    if c = '"' then some (String.mk acc.reverse, rest)
    else if c = '\\' then
      match rest with
      | [] => none
      | d :: rest => readString rest (d :: acc)
    else readString rest (c :: acc)

/-- Drop the literal `lit` from the front of the input, if it is there. -/
def expect : List Char → List Char → Option (List Char)
  | [], cs => some cs
  | _ :: _, [] => none
  | x :: xs, c :: cs => if x = c then expect xs cs else none

/-- Read `lit` followed by a string literal. -/
def readField (lit : String) (cs : List Char) : Option (String × List Char) :=
  match expect (lit ++ "\"").data cs with
  | none => none
  | some rest => readString rest []

/-- Read the object `Marshal` of the reference codec writes. -/
def readGadget (cs : List Char) : Option Gadget :=
  match readField "\x7b\"make\":" cs with
  | none => none
  | some (make, cs) =>
    match readField ",\"model\":" cs with
    | none => none
    | some (model, cs) =>
      match readField ",\"colour\":" cs with
      | none => none
      | some (colour, cs) =>
        match readField ",\"owner\":" cs with
        | none => none
        | some (owner, cs) =>
          if cs = ['\x7d'] then some ⟨make, model, colour, owner⟩ else none

/-- The reference codec. -/
def refJson : Json where
  Marshal := fun g =>
    "\x7b\"make\":" ++ quote g.Make ++ ",\"model\":" ++ quote g.Model ++
      ",\"colour\":" ++ quote g.Colour ++ ",\"owner\":" ++ quote g.Owner ++ "\x7d"
  Unmarshal := fun data g =>
    match readGadget data.data with
    | some g2 => (g2, none)
    | none => (g, some "invalid character")

/-- A reference rendering of a timestamp. -/
def refTime (seconds nanos : Int) : String :=
  toString seconds ++ "." ++ toString nanos

/-- The codec round-trips the record `g`: decoding what `Marshal g` wrote
into a zero record gives `g` and no error. -/
abbrev Json.RoundTrips (J : Json) (g : Gadget) : Prop :=
  J.Unmarshal (J.Marshal g) Gadget.zero = (g, none)

/-- A stub over the in-memory ledger whose range query and history query
hand out the given results, whatever the state: a ledger whose iterators can
fail. -/
def scriptedStub (range : Except String (Iterator KV))
    (history : Except String (Iterator KeyModification)) : ChaincodeStub Ledger where
  GetState := fun l key => (l.get key, none)
  PutState := (memStub "tx" ⟨0, 0⟩).PutState
  DelState := fun l key => (l.del "tx" ⟨0, 0⟩ key, none)
  GetStateByRange := fun _ _ _ => range
  GetHistoryForKey := fun _ _ => history

/-! ## The response encoding, as the specification words it -/

/-- The rendering of a pair (k, v): `{"Key":"k", "Record":v}`, with v verbatim. -/
def renderKV (kv : KV) : String :=
  "\x7b\"Key\":\"" ++ kv.Key ++ "\", \"Record\":" ++ kv.Value ++ "\x7d"

/-- The rendering of a change-log entry:
`{"TxId":"t", "Value":v, "Timestamp":"time", "IsDelete":"b"}`, with `null` for
the value of a deletion and the raw value verbatim otherwise. -/
def renderHistory (timeString : Int → Int → String) (m : KeyModification) : String :=
  "\x7b\"TxId\":\"" ++ m.TxId ++ "\", \"Value\":" ++ (if m.IsDelete then "null" else m.Value)
    ++ ", \"Timestamp\":\"" ++ timeString m.Timestamp.Seconds m.Timestamp.Nanos
    ++ "\", \"IsDelete\":\"" ++ FormatBool m.IsDelete ++ "\"\x7d"

/-- The array encoding of the specification (`encodeArray`): an opening bracket, the
renderings joined by a single comma, a closing bracket. -/
def encodeArray (items : List String) : String :=
  "[" ++ ",".intercalate items ++ "]"

/-- The renderings with one comma between neighbours. -/
def joinComma : List String → String
  | [] => ""
  | [x] => x
  | x :: y :: rest => x ++ "," ++ joinComma (y :: rest)

/-- The number of occurrences of a character in a string. -/
def countChar (c : Char) (s : String) : Nat := s.data.count c

/-- The nesting depth of square brackets after reading the characters from
depth `d`; `none` when a closing bracket has no opening one. -/
def bracketDepth : List Char → Nat → Option Nat
  | [], d => some d
  | c :: cs, d =>
    if c = '[' then bracketDepth cs (d + 1)
    else if c = ']' then
      match d with
      | 0 => none
      | d + 1 => bracketDepth cs d
    else bracketDepth cs d

/-- The square brackets of a string are balanced. -/
def balancedBrackets (s : String) : Bool := bracketDepth s.data 0 = some 0

/-- The shape of an array string `p` over the item renderings `items`: "[]"
for none, "[item]" for one, one separating comma between neighbours and none
elsewhere (so the commas of `p` are those of the items and `n - 1` more), and
balanced brackets when those of the items are. -/
def ArrayShape (items : List String) (p : String) : Prop :=
  (items = [] → p = "[]") ∧
  (∀ x, items = [x] → p = "[" ++ x ++ "]") ∧
  countChar ',' p = (items.length - 1) + (items.map (countChar ',')).sum ∧
  ((∀ x ∈ items, balancedBrackets x = true) → balancedBrackets p = true)

/-! ## The scanned key range and ledgers that fail -/

/-- The key lies in the interval `["GADGET0", "GADGET999")` that queryAllGadgets
scans. -/
def inScanRange (k : String) : Bool := keyLe "GADGET0" k && keyLt k "GADGET999"

/-- The characters `s` start with the characters `pre`. -/
def startsWith : List Char → List Char → Bool
  | [], _ => true
  | _ :: _, [] => false
  | p :: ps, c :: cs => p = c && startsWith ps cs

/-- The pairs are in strictly increasing key order. -/
def KeySorted (qs : List KV) : Prop :=
  qs.Pairwise (fun a b => keyLt a.Key b.Key = true)

/-- A stub over the in-memory ledger whose point read, put and delete report
the given error when one is given, and then change nothing. -/
def faultyStub (getErr putErr delErr : Option String) : ChaincodeStub Ledger where
  GetState := fun l key =>
    match getErr with
    | some err => (none, some err)
    | none => (l.get key, none)
  PutState := fun l key value =>
    match putErr with
    | some err => (l, some err)
    | none => (memStub "tx" ⟨0, 0⟩).PutState l key value
  DelState := fun l key =>
    match delErr with
    | some err => (l, some err)
    | none => (l.del "tx" ⟨0, 0⟩ key, none)
  GetStateByRange := fun l startKey endKey => .ok ((l.range startKey endKey).map .ok)
  GetHistoryForKey := fun l key => .ok ((l.historyOf key).map .ok)

/-! ## Dispatch -/

section Dispatch

variable {σ : Type} (J : Json) (T : Int → Int → String) (stub : ChaincodeStub σ) (s : σ)
  (args : List String)

theorem Invoke_queryGadget :
    Invoke J T stub s "queryGadget" args = queryGadget stub s args := by
  simp [Invoke]

theorem Invoke_initLedger :
    Invoke J T stub s "initLedger" args = initLedger J stub s := by
  simp [Invoke]

theorem Invoke_createGadget :
    Invoke J T stub s "createGadget" args = createGadget J stub s args := by
  simp [Invoke]

theorem Invoke_queryAllGadgets :
    Invoke J T stub s "queryAllGadgets" args = queryAllGadgets stub s := by
  simp [Invoke]

theorem Invoke_changeGadgetOwner :
    Invoke J T stub s "changeGadgetOwner" args = changeGadgetOwner J stub s args := by
  simp [Invoke]

theorem Invoke_getGadgetHistory :
    Invoke J T stub s "getGadgetHistory" args = getGadgetHistory T stub s args := by
  simp [Invoke]

theorem Invoke_deleteGadget :
    Invoke J T stub s "deleteGadget" args = deleteGadget J stub s args := by
  simp [Invoke]

end Dispatch

/-! ## The in-memory ledger: reads after writes -/

theorem lookup_filter_ne (key : String) (st : List (String × String)) :
    (st.filter (fun p => p.1 ≠ key)).lookup key = none := by
  induction st with
  | nil => rfl
  | cons p st ih =>
    by_cases h : p.1 = key
    · rw [List.filter_cons_of_neg (by simpa using h)]
      exact ih
    · have hb : (key == p.1) = false := by simpa using fun h2 => h h2.symm
      rw [List.filter_cons_of_pos (by simpa using h), List.lookup_cons, hb]
      exact ih

theorem lookup_filter_other (key k2 : String) (h : k2 ≠ key) (st : List (String × String)) :
    (st.filter (fun p => p.1 ≠ key)).lookup k2 = st.lookup k2 := by
  induction st with
  | nil => rfl
  | cons p st ih =>
    by_cases hp : p.1 = key
    · have hb : (k2 == p.1) = false := by simpa [hp] using h
      rw [List.filter_cons_of_neg (by simpa using hp), List.lookup_cons, hb]
      exact ih
    · rw [List.filter_cons_of_pos (by simpa using hp), List.lookup_cons, List.lookup_cons, ih]

theorem Ledger.get_put_same (txId : String) (ts : Timestamp) (l : Ledger) (key value : String) :
    (l.put txId ts key value).get key = some value := by
  simp [Ledger.put, Ledger.get, List.lookup_cons]

theorem Ledger.get_put_other (txId : String) (ts : Timestamp) (l : Ledger)
    (key value k2 : String) (h : k2 ≠ key) :
    (l.put txId ts key value).get k2 = l.get k2 := by
  have hb : (k2 == key) = false := by simpa using h
  unfold Ledger.put Ledger.get
  rw [List.lookup_cons, hb]
  exact lookup_filter_other key k2 h l.State

theorem Ledger.get_del_same (txId : String) (ts : Timestamp) (l : Ledger) (key : String) :
    (l.del txId ts key).get key = none := by
  exact lookup_filter_ne key l.State

theorem Ledger.get_del_other (txId : String) (ts : Timestamp) (l : Ledger)
    (key k2 : String) (h : k2 ≠ key) :
    (l.del txId ts key).get k2 = l.get k2 := by
  exact lookup_filter_other key k2 h l.State

/-! ## Create, read, update, delete -/

/-- C1, as stated, fails at the empty key: the ledger refuses the put,
createGadget drops the error and returns success with the ledger as it was, and
the following queryGadget returns success with a nil payload, which does not
decode to the record (a record the codec does round-trip). -/
theorem C1_empty_key_counterexample :
    Invoke refJson refTime (memStub "tx1" ⟨1, 0⟩) Ledger.empty "createGadget"
        ["", "Nokia", "N72", "Black", "Lalitha"] = (shim.Success none, Ledger.empty) ∧
    (Invoke refJson refTime (memStub "tx2" ⟨2, 0⟩)
        (Invoke refJson refTime (memStub "tx1" ⟨1, 0⟩) Ledger.empty "createGadget"
          ["", "Nokia", "N72", "Black", "Lalitha"]).2
        "queryGadget" [""]).1 = shim.Success none ∧
    refJson.RoundTrips ⟨"Nokia", "N72", "Black", "Lalitha"⟩ ∧
    refJson.Unmarshal (bytesOf none) Gadget.zero
      ≠ (⟨"Nokia", "N72", "Black", "Lalitha"⟩, none) := by
  decide

/-- C1, amended: from every state of the in-memory ledger, for every key other
than the empty one and every four strings the codec round-trips, createGadget
on [key, make, model, colour, owner] succeeds and a following queryGadget on
[key] succeeds with a payload that decodes to the record with exactly those
four fields. -/
theorem C1_create_then_query_round_trip (J : Json) (T : Int → Int → String)
    (tx1 tx2 : String) (ts1 ts2 : Timestamp) (l : Ledger)
    (key make model colour owner : String)
    (hk : key ≠ "")
    (hJ : J.RoundTrips ⟨make, model, colour, owner⟩) :
    (Invoke J T (memStub tx1 ts1) l "createGadget" [key, make, model, colour, owner]).1
        = shim.Success none ∧
    ∃ payload,
      (Invoke J T (memStub tx2 ts2)
          (Invoke J T (memStub tx1 ts1) l "createGadget" [key, make, model, colour, owner]).2
          "queryGadget" [key]).1 = shim.Success (some payload) ∧
      J.Unmarshal payload Gadget.zero = (⟨make, model, colour, owner⟩, none) := by
  refine ⟨by simp [Invoke_createGadget, createGadget], J.Marshal ⟨make, model, colour, owner⟩, ?_, hJ⟩
  simp [Invoke_createGadget, Invoke_queryGadget, createGadget, queryGadget, memStub,
    Ledger.get_put_same, hk]

/-- C1 amended, at a key that already holds a value. -/
theorem C1_create_then_query_round_trip_witness :
    "GADGET1" ≠ "" ∧
    refJson.RoundTrips ⟨"Nokia", "N\"72", "Black", "Lalitha"⟩ ∧
    (Invoke refJson refTime (memStub "tx1" ⟨1, 0⟩)
        { State := [("GADGET1", "old")], History := [] }
        "createGadget" ["GADGET1", "Nokia", "N\"72", "Black", "Lalitha"]).1
        = shim.Success none ∧
    ∃ payload,
      (Invoke refJson refTime (memStub "tx2" ⟨2, 0⟩)
          (Invoke refJson refTime (memStub "tx1" ⟨1, 0⟩)
            { State := [("GADGET1", "old")], History := [] }
            "createGadget" ["GADGET1", "Nokia", "N\"72", "Black", "Lalitha"]).2
          "queryGadget" ["GADGET1"]).1 = shim.Success (some payload) ∧
      refJson.Unmarshal payload Gadget.zero = (⟨"Nokia", "N\"72", "Black", "Lalitha"⟩, none) :=
  ⟨by decide, by decide,
   C1_create_then_query_round_trip refJson refTime "tx1" "tx2" ⟨1, 0⟩ ⟨2, 0⟩
     { State := [("GADGET1", "old")], History := [] }
     "GADGET1" "Nokia" "N\"72" "Black" "Lalitha" (by decide) (by decide)⟩

/-- C2: for every state of the in-memory ledger and every key without a
current value, deleteGadget on [key] returns the error
"gadget does not exist: <key>" (in the JSON wrapping the code gives it) and
the ledger afterwards, current values and change log, is the ledger before. -/
theorem C2_delete_absent_key (J : Json) (T : Int → Int → String)
    (tx : String) (ts : Timestamp) (l : Ledger) (key : String)
    (h : l.get key = none) :
    Invoke J T (memStub tx ts) l "deleteGadget" [key] =
      (shim.Error ("\x7b\"Error\":\"gadget does not exist: " ++ key ++ "\"\x7d"), l) := by
  simp [Invoke_deleteGadget, deleteGadget, memStub, h]

/-- C2, on a ledger that holds another key and a change log. -/
theorem C2_delete_absent_key_witness :
    (Ledger.put "tx0" ⟨0, 0⟩ Ledger.empty "GADGET1" "v").get "GADGET2" = none ∧
    Invoke refJson refTime (memStub "tx1" ⟨1, 0⟩)
        (Ledger.put "tx0" ⟨0, 0⟩ Ledger.empty "GADGET1" "v") "deleteGadget" ["GADGET2"] =
      (shim.Error "\x7b\"Error\":\"gadget does not exist: GADGET2\"\x7d",
        Ledger.put "tx0" ⟨0, 0⟩ Ledger.empty "GADGET1" "v") :=
  ⟨by decide,
   C2_delete_absent_key refJson refTime "tx1" ⟨1, 0⟩
     (Ledger.put "tx0" ⟨0, 0⟩ Ledger.empty "GADGET1" "v") "GADGET2" (by decide)⟩

/-- C3, as stated, fails at the empty key: the ledger refuses both puts,
createGadget and changeGadgetOwner drop the error and return success with the
ledger as it was, and queryGadget returns success with a nil payload, which
does not decode to the record with the new owner. -/
theorem C3_empty_key_counterexample :
    Invoke refJson refTime (memStub "tx2" ⟨2, 0⟩)
        (Invoke refJson refTime (memStub "tx1" ⟨1, 0⟩) Ledger.empty "createGadget"
          ["", "MI", "MI20", "Gray", "Jack"]).2
        "changeGadgetOwner" ["", "Jill"] = (shim.Success none, Ledger.empty) ∧
    (Invoke refJson refTime (memStub "tx3" ⟨3, 0⟩)
        (Invoke refJson refTime (memStub "tx2" ⟨2, 0⟩)
          (Invoke refJson refTime (memStub "tx1" ⟨1, 0⟩) Ledger.empty "createGadget"
            ["", "MI", "MI20", "Gray", "Jack"]).2
          "changeGadgetOwner" ["", "Jill"]).2
        "queryGadget" [""]).1 = shim.Success none ∧
    refJson.RoundTrips ⟨"MI", "MI20", "Gray", "Jack"⟩ ∧
    refJson.RoundTrips ⟨"MI", "MI20", "Gray", "Jill"⟩ ∧
    refJson.Unmarshal (bytesOf none) Gadget.zero ≠ (⟨"MI", "MI20", "Gray", "Jill"⟩, none) := by
  decide

/-- C3, amended: on the in-memory ledger, for every key other than the empty
one, after createGadget on [key, make, model, colour, owner] and
changeGadgetOwner on [key, o2], queryGadget on [key] succeeds with a payload
that decodes to the record with owner o2 and the make, model and colour that
were created (for strings the codec round-trips). -/
theorem C3_change_owner_after_create (J : Json) (T : Int → Int → String)
    (tx1 tx2 tx3 : String) (ts1 ts2 ts3 : Timestamp) (l : Ledger)
    (key make model colour owner o2 : String)
    (hk : key ≠ "")
    (hJ : J.RoundTrips ⟨make, model, colour, owner⟩)
    (hJ2 : J.RoundTrips ⟨make, model, colour, o2⟩) :
    ∃ payload,
      (Invoke J T (memStub tx3 ts3)
          (Invoke J T (memStub tx2 ts2)
            (Invoke J T (memStub tx1 ts1) l "createGadget"
              [key, make, model, colour, owner]).2
            "changeGadgetOwner" [key, o2]).2
          "queryGadget" [key]).1 = shim.Success (some payload) ∧
      J.Unmarshal payload Gadget.zero = (⟨make, model, colour, o2⟩, none) := by
  refine ⟨J.Marshal ⟨make, model, colour, o2⟩, ?_, hJ2⟩
  have h1 : J.Unmarshal (J.Marshal ⟨make, model, colour, owner⟩) Gadget.zero
      = (⟨make, model, colour, owner⟩, none) := hJ
  simp [Invoke_createGadget, Invoke_changeGadgetOwner, Invoke_queryGadget, createGadget,
    changeGadgetOwner, queryGadget, memStub, Ledger.get_put_same, bytesOf, h1, hk]

/-- C3 amended, on the empty ledger. -/
theorem C3_change_owner_after_create_witness :
    "GADGET6" ≠ "" ∧
    refJson.RoundTrips ⟨"MI", "MI20", "Gray", "Jack"⟩ ∧
    refJson.RoundTrips ⟨"MI", "MI20", "Gray", "Jill"⟩ ∧
    ∃ payload,
      (Invoke refJson refTime (memStub "tx3" ⟨3, 0⟩)
          (Invoke refJson refTime (memStub "tx2" ⟨2, 0⟩)
            (Invoke refJson refTime (memStub "tx1" ⟨1, 0⟩) Ledger.empty "createGadget"
              ["GADGET6", "MI", "MI20", "Gray", "Jack"]).2
            "changeGadgetOwner" ["GADGET6", "Jill"]).2
          "queryGadget" ["GADGET6"]).1 = shim.Success (some payload) ∧
      refJson.Unmarshal payload Gadget.zero = (⟨"MI", "MI20", "Gray", "Jill"⟩, none) :=
  ⟨by decide, by decide, by decide,
   C3_change_owner_after_create refJson refTime "tx1" "tx2" "tx3" ⟨1, 0⟩ ⟨2, 0⟩ ⟨3, 0⟩
     Ledger.empty "GADGET6" "MI" "MI20" "Gray" "Jack" "Jill" (by decide) (by decide)
     (by decide)⟩

/-! ## Argument counts and unknown names -/

/-- C4, as stated, fails: initLedger and queryAllGadgets called with one
argument, and getGadgetHistory called with two, succeed. -/
theorem C4_arity_error_counterexample :
    (Invoke refJson refTime (memStub "tx1" ⟨1, 0⟩) Ledger.empty "initLedger" ["x"]).1
        = shim.Success none ∧
    (Invoke refJson refTime (memStub "tx1" ⟨1, 0⟩) Ledger.empty "queryAllGadgets" ["x"]).1
        = shim.Success (some "[]") ∧
    (Invoke refJson refTime (memStub "tx1" ⟨1, 0⟩) Ledger.empty
        "getGadgetHistory" ["GADGET0", "x"]).1 = shim.Success (some "[]") ∧
    shim.Success none ≠ shim.Error "Incorrect number of arguments. Expecting 0" ∧
    shim.Success (some "[]") ≠ shim.Error "Incorrect number of arguments. Expecting 0" ∧
    shim.Success (some "[]") ≠ shim.Error "Incorrect number of arguments. Expecting 1" := by
  decide

/-- C4, amended: for queryGadget, createGadget, changeGadgetOwner and
deleteGadget, every argument list whose length differs from the arity (1, 5,
2, 1) makes Invoke return the error "Incorrect number of arguments. Expecting
n" with the ledger untouched; getGadgetHistory returns that error (n = 1) for
the empty argument list; initLedger and queryAllGadgets do not look at their
argument list. -/
theorem C4_arity_errors {σ : Type} (J : Json) (T : Int → Int → String)
    (stub : ChaincodeStub σ) (s : σ) (args : List String) :
    (args.length ≠ 1 → Invoke J T stub s "queryGadget" args
        = (shim.Error "Incorrect number of arguments. Expecting 1", s)) ∧
    (args.length ≠ 5 → Invoke J T stub s "createGadget" args
        = (shim.Error "Incorrect number of arguments. Expecting 5", s)) ∧
    (args.length ≠ 2 → Invoke J T stub s "changeGadgetOwner" args
        = (shim.Error "Incorrect number of arguments. Expecting 2", s)) ∧
    (args.length ≠ 1 → Invoke J T stub s "deleteGadget" args
        = (shim.Error "Incorrect number of arguments. Expecting 1", s)) ∧
    (args.length = 0 → Invoke J T stub s "getGadgetHistory" args
        = (shim.Error "Incorrect number of arguments. Expecting 1", s)) ∧
    Invoke J T stub s "initLedger" args = Invoke J T stub s "initLedger" [] ∧
    Invoke J T stub s "queryAllGadgets" args = Invoke J T stub s "queryAllGadgets" [] := by
  refine ⟨?_, ?_, ?_, ?_, ?_, ?_, ?_⟩
  · intro h
    simp [Invoke_queryGadget, queryGadget, h]
  · intro h
    simp [Invoke_createGadget, createGadget, h]
  · intro h
    simp [Invoke_changeGadgetOwner, changeGadgetOwner, h]
  · intro h
    simp [Invoke_deleteGadget, deleteGadget, h]
  · intro h
    simp [Invoke_getGadgetHistory, getGadgetHistory, h]
  · simp [Invoke_initLedger]
  · simp [Invoke_queryAllGadgets]

/-- C4 amended, at the empty argument list on the empty ledger. -/
theorem C4_arity_errors_witness :
    ([] : List String).length ≠ 1 ∧ ([] : List String).length ≠ 5 ∧
    ([] : List String).length ≠ 2 ∧ ([] : List String).length = 0 ∧
    Invoke refJson refTime (memStub "tx1" ⟨1, 0⟩) Ledger.empty "queryGadget" []
        = (shim.Error "Incorrect number of arguments. Expecting 1", Ledger.empty) ∧
    Invoke refJson refTime (memStub "tx1" ⟨1, 0⟩) Ledger.empty "createGadget" []
        = (shim.Error "Incorrect number of arguments. Expecting 5", Ledger.empty) ∧
    Invoke refJson refTime (memStub "tx1" ⟨1, 0⟩) Ledger.empty "changeGadgetOwner" []
        = (shim.Error "Incorrect number of arguments. Expecting 2", Ledger.empty) ∧
    Invoke refJson refTime (memStub "tx1" ⟨1, 0⟩) Ledger.empty "deleteGadget" []
        = (shim.Error "Incorrect number of arguments. Expecting 1", Ledger.empty) ∧
    Invoke refJson refTime (memStub "tx1" ⟨1, 0⟩) Ledger.empty "getGadgetHistory" []
        = (shim.Error "Incorrect number of arguments. Expecting 1", Ledger.empty) :=
  have h := C4_arity_errors refJson refTime (memStub "tx1" ⟨1, 0⟩) Ledger.empty []
  ⟨by decide, by decide, by decide, by decide,
   h.1 (by decide), h.2.1 (by decide), h.2.2.1 (by decide), h.2.2.2.1 (by decide),
   h.2.2.2.2.1 (by decide)⟩

/-- Only the first argument of getGadgetHistory is read: the guard is
`len(args) < 1`, so further arguments are accepted and dropped. -/
theorem getGadgetHistory_extra_args {σ : Type} (T : Int → Int → String)
    (stub : ChaincodeStub σ) (s : σ) (key : String) (more : List String) :
    getGadgetHistory T stub s (key :: more) = getGadgetHistory T stub s [key] := by
  have h1 : ¬ (key :: more).length < 1 := by simp
  have h2 : ¬ [key].length < 1 := by simp
  simp only [getGadgetHistory, if_neg h1, if_neg h2, List.getD_cons_zero]

/-- C5: for every function name other than the seven handled ones, every
argument list and every ledger state behind any stub, Invoke returns the error
"Invalid Smart Contract function name." and the ledger state is the one
before. -/
theorem C5_unknown_function {σ : Type} (J : Json) (T : Int → Int → String)
    (stub : ChaincodeStub σ) (s : σ) (function : String) (args : List String)
    (h : function ∉ ["queryGadget", "initLedger", "createGadget", "queryAllGadgets",
      "changeGadgetOwner", "getGadgetHistory", "deleteGadget"]) :
    Invoke J T stub s function args
      = (shim.Error "Invalid Smart Contract function name.", s) := by
  simp only [List.mem_cons, List.mem_singleton, List.not_mem_nil, not_or, or_false] at h
  obtain ⟨h1, h2, h3, h4, h5, h6, h7⟩ := h
  simp [Invoke, h1, h2, h3, h4, h5, h6, h7]

/-- C5, at the name "QueryGadget" on a ledger holding one key. -/
theorem C5_unknown_function_witness :
    "QueryGadget" ∉ ["queryGadget", "initLedger", "createGadget", "queryAllGadgets",
      "changeGadgetOwner", "getGadgetHistory", "deleteGadget"] ∧
    Invoke refJson refTime (memStub "tx1" ⟨1, 0⟩)
        (Ledger.put "tx0" ⟨0, 0⟩ Ledger.empty "GADGET1" "v") "QueryGadget" ["GADGET1"]
      = (shim.Error "Invalid Smart Contract function name.",
          Ledger.put "tx0" ⟨0, 0⟩ Ledger.empty "GADGET1" "v") :=
  ⟨by decide,
   C5_unknown_function refJson refTime (memStub "tx1" ⟨1, 0⟩)
     (Ledger.put "tx0" ⟨0, 0⟩ Ledger.empty "GADGET1" "v") "QueryGadget" ["GADGET1"]
     (by decide)⟩

/-! ## The response encoding -/

theorem intercalate_go (acc x : String) (xs : List String) :
    String.intercalate.go acc "," (x :: xs) = acc ++ "," ++ joinComma (x :: xs) := by
  induction xs generalizing acc x with
  | nil => simp [String.intercalate.go, joinComma]
  | cons y ys ih =>
    rw [String.intercalate.go, ih]
    simp [joinComma, String.append_assoc]

theorem joinComma_eq (xs : List String) : joinComma xs = ",".intercalate xs := by
  cases xs with
  | nil => rfl
  | cons x xs =>
    cases xs with
    | nil => rfl
    | cons y ys => simp [String.intercalate, intercalate_go, joinComma, String.append_assoc]

theorem encodeArray_eq (xs : List String) : encodeArray xs = "[" ++ joinComma xs ++ "]" := by
  rw [encodeArray, joinComma_eq]

theorem queryAllLoop_step (kv : KV) (rest : Iterator KV) (buffer : String) (w : Bool) :
    queryAllLoop (.ok kv :: rest) buffer w
      = queryAllLoop rest (buffer ++ (if w then "," else "") ++ renderKV kv) true := by
  have h : (if w = true then buffer ++ "," else buffer) ++ "\x7b\"Key\":" ++ "\"" ++ kv.Key
      ++ "\"" ++ ", \"Record\":" ++ kv.Value ++ "\x7d"
      = buffer ++ (if w then "," else "") ++ renderKV kv := by
    apply String.ext
    cases w <;> simp [renderKV]
  simp only [queryAllLoop]
  rw [h]

theorem queryAllLoop_ok (kv : KV) (rest : List KV) (buffer : String) (w : Bool) :
    queryAllLoop ((kv :: rest).map .ok) buffer w
      = .ok (buffer ++ (if w then "," else "") ++ joinComma ((kv :: rest).map renderKV)) := by
  induction rest generalizing kv buffer w with
  | nil =>
    rw [List.map_cons, List.map_nil, queryAllLoop_step]
    simp [queryAllLoop, joinComma]
  | cons kv2 rest ih =>
    rw [List.map_cons, queryAllLoop_step, ih]
    simp [joinComma, String.append_assoc]

theorem queryAllLoop_all (kvs : List KV) :
    queryAllLoop (kvs.map .ok) "[" false = .ok ("[" ++ joinComma (kvs.map renderKV)) := by
  cases kvs with
  | nil => rfl
  | cons kv rest =>
    rw [queryAllLoop_ok]
    apply congrArg
    apply String.ext
    simp

theorem queryAllLoop_error (pre : List KV) (err : String) (rest : Iterator KV)
    (buffer : String) (w : Bool) :
    queryAllLoop (pre.map .ok ++ .error err :: rest) buffer w = .error err := by
  induction pre generalizing buffer w with
  | nil => rfl
  | cons kv pre ih => rw [List.map_cons, List.cons_append, queryAllLoop_step, ih]

theorem historyLoop_step (T : Int → Int → String) (m : KeyModification)
    (rest : Iterator KeyModification) (buffer : String) (w : Bool) :
    historyLoop T (.ok m :: rest) buffer w
      = historyLoop T rest (buffer ++ (if w then "," else "") ++ renderHistory T m) true := by
  have h : (if m.IsDelete = true then
        (if w = true then buffer ++ "," else buffer) ++ "\x7b\"TxId\":" ++ "\"" ++ m.TxId ++ "\""
          ++ ", \"Value\":" ++ "null"
      else
        (if w = true then buffer ++ "," else buffer) ++ "\x7b\"TxId\":" ++ "\"" ++ m.TxId ++ "\""
          ++ ", \"Value\":" ++ m.Value)
      ++ ", \"Timestamp\":" ++ "\"" ++ T m.Timestamp.Seconds m.Timestamp.Nanos ++ "\""
      ++ ", \"IsDelete\":" ++ "\"" ++ FormatBool m.IsDelete ++ "\"" ++ "\x7d"
      = buffer ++ (if w then "," else "") ++ renderHistory T m := by
    obtain ⟨txId, value, ts, isDelete⟩ := m
    apply String.ext
    cases w <;> cases isDelete <;> simp [renderHistory]
  simp only [historyLoop]
  rw [h]

theorem historyLoop_ok (T : Int → Int → String) (m : KeyModification)
    (rest : List KeyModification) (buffer : String) (w : Bool) :
    historyLoop T ((m :: rest).map .ok) buffer w
      = .ok (buffer ++ (if w then "," else "")
          ++ joinComma ((m :: rest).map (renderHistory T))) := by
  induction rest generalizing m buffer w with
  | nil =>
    rw [List.map_cons, List.map_nil, historyLoop_step]
    simp [historyLoop, joinComma]
  | cons m2 rest ih =>
    rw [List.map_cons, historyLoop_step, ih]
    simp [joinComma, String.append_assoc]

theorem historyLoop_all (T : Int → Int → String) (mods : List KeyModification) :
    historyLoop T (mods.map .ok) "[" false
      = .ok ("[" ++ joinComma (mods.map (renderHistory T))) := by
  cases mods with
  | nil => rfl
  | cons m rest =>
    rw [historyLoop_ok]
    apply congrArg
    apply String.ext
    simp

theorem historyLoop_error (T : Int → Int → String) (pre : List KeyModification)
    (err : String) (rest : Iterator KeyModification) (buffer : String) (w : Bool) :
    historyLoop T (pre.map .ok ++ .error err :: rest) buffer w = .error err := by
  induction pre generalizing buffer w with
  | nil => rfl
  | cons m pre ih => rw [List.map_cons, List.cons_append, historyLoop_step, ih]

theorem queryAllGadgets_payload {σ : Type} (stub : ChaincodeStub σ) (s : σ) (kvs : List KV)
    (h : stub.GetStateByRange s "GADGET0" "GADGET999" = .ok (kvs.map .ok)) :
    queryAllGadgets stub s = (shim.Success (some (encodeArray (kvs.map renderKV))), s) := by
  simp only [queryAllGadgets, h, queryAllLoop_all, encodeArray_eq]

theorem getGadgetHistory_payload {σ : Type} (T : Int → Int → String)
    (stub : ChaincodeStub σ) (s : σ) (key : String) (more : List String)
    (mods : List KeyModification)
    (h : stub.GetHistoryForKey s key = .ok (mods.map .ok)) :
    getGadgetHistory T stub s (key :: more)
      = (shim.Success (some (encodeArray (mods.map (renderHistory T)))), s) := by
  have hlen : ¬ (key :: more).length < 1 := by simp
  simp only [getGadgetHistory, if_neg hlen, List.getD_cons_zero, h, historyLoop_all,
    encodeArray_eq]

theorem countChar_append (c : Char) (s t : String) :
    countChar c (s ++ t) = countChar c s + countChar c t := by
  simp [countChar, List.count_append]

theorem countChar_joinComma (x : String) (xs : List String) :
    countChar ',' (joinComma (x :: xs))
      = xs.length + ((x :: xs).map (countChar ',')).sum := by
  induction xs generalizing x with
  | nil => simp [joinComma]
  | cons y ys ih =>
    rw [joinComma, countChar_append, countChar_append, ih]
    have h : countChar ',' "," = 1 := by decide
    simp [h]
    omega

theorem bracketDepth_append (xs ys : List Char) (d : Nat) :
    bracketDepth (xs ++ ys) d = (bracketDepth xs d).bind (bracketDepth ys) := by
  induction xs generalizing d with
  | nil => rfl
  | cons c cs ih =>
    simp only [List.cons_append, bracketDepth]
    split
    · exact ih _
    · split
      · cases d with
        | zero => rfl
        | succ d => exact ih _
      · exact ih _

theorem bracketDepth_add (xs : List Char) (d e k : Nat) (h : bracketDepth xs d = some e) :
    bracketDepth xs (d + k) = some (e + k) := by
  induction xs generalizing d with
  | nil =>
    simp only [bracketDepth, Option.some.injEq] at h ⊢
    omega
  | cons c cs ih =>
    simp only [bracketDepth] at h ⊢
    split
    · rename_i hc
      rw [if_pos hc] at h
      have h2 := ih (d + 1) h
      rwa [Nat.add_right_comm] at h2
    · rename_i hc
      rw [if_neg hc] at h
      split
      · rename_i hc2
        rw [if_pos hc2] at h
        cases d with
        | zero => simp at h
        | succ d =>
          rw [Nat.add_right_comm]
          exact ih d h
      · rename_i hc2
        rw [if_neg hc2] at h
        exact ih d h

theorem bracketDepth_joinComma (xs : List String) (d : Nat)
    (h : ∀ x ∈ xs, balancedBrackets x = true) :
    bracketDepth (joinComma xs).data d = some d := by
  have item : ∀ x : String, balancedBrackets x = true →
      ∀ d, bracketDepth x.data d = some d := by
    intro x hx d
    have h0 : bracketDepth x.data 0 = some 0 := by simpa [balancedBrackets] using hx
    simpa using bracketDepth_add x.data 0 0 d h0
  induction xs with
  | nil => rfl
  | cons x xs ih =>
    cases xs with
    | nil => exact item x (h x (by simp)) d
    | cons y ys =>
      rw [joinComma, String.data_append, String.data_append, bracketDepth_append,
        bracketDepth_append, item x (h x (by simp)) d]
      have hc : bracketDepth ",".data d = some d := by
        show bracketDepth [','] d = some d
        simp [bracketDepth]
      simp only [Option.some_bind, hc]
      exact ih (fun z hz => h z (List.mem_cons_of_mem _ hz))

theorem encodeArray_shape (items : List String) : ArrayShape items (encodeArray items) := by
  refine ⟨?_, ?_, ?_, ?_⟩
  · intro h
    subst h
    rfl
  · intro x h
    subst h
    rw [encodeArray_eq, joinComma]
  · rw [encodeArray_eq, countChar_append, countChar_append]
    have h1 : countChar ',' "[" = 0 := by decide
    have h2 : countChar ',' "]" = 0 := by decide
    rw [h1, h2]
    cases items with
    | nil => rfl
    | cons x xs =>
      rw [countChar_joinComma]
      simp
  · intro h
    have hj := bracketDepth_joinComma items 1 h
    have hd : ("[" ++ joinComma items ++ "]").data = '[' :: ((joinComma items).data ++ [']']) := by
      simp
    rw [encodeArray_eq, balancedBrackets, hd]
    simp [bracketDepth, bracketDepth_append, hj]

/-- C6: for every finite sequence of pairs the range query delivers without
error, behind any stub, queryAllGadgets succeeds with the payload "[", the
renderings {"Key":"k", "Record":v} of the pairs in delivery order joined by a
single ",", "]"; for no pairs it is exactly "[]". -/
theorem C6_queryAllGadgets_payload {σ : Type} (J : Json) (T : Int → Int → String)
    (stub : ChaincodeStub σ) (s : σ) (args : List String) (kvs : List KV)
    (h : stub.GetStateByRange s "GADGET0" "GADGET999" = .ok (kvs.map .ok)) :
    Invoke J T stub s "queryAllGadgets" args
      = (shim.Success (some ("[" ++ ",".intercalate (kvs.map renderKV) ++ "]")), s) ∧
    (kvs = [] → Invoke J T stub s "queryAllGadgets" args = (shim.Success (some "[]"), s)) := by
  have hp := queryAllGadgets_payload stub s kvs h
  refine ⟨?_, ?_⟩
  · rw [Invoke_queryAllGadgets, hp, encodeArray]
  · intro hk
    subst hk
    rw [Invoke_queryAllGadgets, hp]
    rfl

/-- C6, on a ledger holding two keys of the scanned range. -/
theorem C6_queryAllGadgets_payload_witness :
    (memStub "tx1" ⟨1, 0⟩).GetStateByRange
        { State := [("GADGET2", "\x7b\x7d"), ("GADGET1", "7")], History := [] }
        "GADGET0" "GADGET999"
      = .ok ([⟨"GADGET1", "7"⟩, ⟨"GADGET2", "\x7b\x7d"⟩].map .ok) ∧
    Invoke refJson refTime (memStub "tx1" ⟨1, 0⟩)
        { State := [("GADGET2", "\x7b\x7d"), ("GADGET1", "7")], History := [] }
        "queryAllGadgets" []
      = (shim.Success (some ("[" ++ ",".intercalate
            ([⟨"GADGET1", "7"⟩, ⟨"GADGET2", "\x7b\x7d"⟩].map renderKV) ++ "]")),
          { State := [("GADGET2", "\x7b\x7d"), ("GADGET1", "7")], History := [] }) :=
  ⟨rfl,
   (C6_queryAllGadgets_payload refJson refTime (memStub "tx1" ⟨1, 0⟩)
     { State := [("GADGET2", "\x7b\x7d"), ("GADGET1", "7")], History := [] } []
     [⟨"GADGET1", "7"⟩, ⟨"GADGET2", "\x7b\x7d"⟩] rfl).1⟩

/-- C7, as stated, fails: with one pair delivered the array of queryAllGadgets
has one comma, not none, and with the value "[" its brackets are not balanced;
with one change-log entry the array of getGadgetHistory has three commas. -/
theorem C7_comma_count_counterexample :
    (Invoke refJson refTime (memStub "tx1" ⟨1, 0⟩)
        { State := [("GADGET1", "[")], History := [] } "queryAllGadgets" []).1
      = shim.Success (some "[\x7b\"Key\":\"GADGET1\", \"Record\":[\x7d]") ∧
    countChar ',' "[\x7b\"Key\":\"GADGET1\", \"Record\":[\x7d]" = 1 ∧
    balancedBrackets "[\x7b\"Key\":\"GADGET1\", \"Record\":[\x7d]" = false ∧
    (Invoke refJson refTime (memStub "tx1" ⟨1, 0⟩)
        { State := [], History := [("GADGET1", ⟨"tx0", "7", ⟨5, 0⟩, false⟩)] }
        "getGadgetHistory" ["GADGET1"]).1
      = shim.Success (some
          "[\x7b\"TxId\":\"tx0\", \"Value\":7, \"Timestamp\":\"5.0\", \"IsDelete\":\"false\"\x7d]") ∧
    countChar ','
        "[\x7b\"TxId\":\"tx0\", \"Value\":7, \"Timestamp\":\"5.0\", \"IsDelete\":\"false\"\x7d]"
      = 3 := by
  decide

/-- C7, amended: for every sequence of n items delivered without error, the
array string of queryAllGadgets and that of getGadgetHistory is "[]" when
n = 0, "[<item>]" when n = 1, has exactly n - 1 commas besides those inside the
item renderings, and has balanced square brackets whenever every item
rendering has. -/
theorem C7_array_shape {σ : Type} (J : Json) (T : Int → Int → String)
    (stub : ChaincodeStub σ) (s : σ) (args : List String) (key : String) (more : List String)
    (kvs : List KV) (mods : List KeyModification) :
    (stub.GetStateByRange s "GADGET0" "GADGET999" = .ok (kvs.map .ok) →
      ∃ p, Invoke J T stub s "queryAllGadgets" args = (shim.Success (some p), s) ∧
        ArrayShape (kvs.map renderKV) p) ∧
    (stub.GetHistoryForKey s key = .ok (mods.map .ok) →
      ∃ q, Invoke J T stub s "getGadgetHistory" (key :: more) = (shim.Success (some q), s) ∧
        ArrayShape (mods.map (renderHistory T)) q) := by
  refine ⟨?_, ?_⟩
  · intro h
    exact ⟨_, by rw [Invoke_queryAllGadgets, queryAllGadgets_payload stub s kvs h],
      encodeArray_shape _⟩
  · intro h
    exact ⟨_, by rw [Invoke_getGadgetHistory, getGadgetHistory_payload T stub s key more mods h],
      encodeArray_shape _⟩

/-- C7 amended, on a ledger with two pairs in the range and two change-log
entries of the key. -/
theorem C7_array_shape_witness :
    (memStub "tx1" ⟨1, 0⟩).GetStateByRange
        { State := [("GADGET2", "[2,3]"), ("GADGET1", "7")],
          History := [("GADGET1", ⟨"a", "7", ⟨5, 0⟩, false⟩), ("GADGET1", ⟨"b", "", ⟨6, 0⟩, true⟩)] }
        "GADGET0" "GADGET999"
      = .ok ([⟨"GADGET1", "7"⟩, ⟨"GADGET2", "[2,3]"⟩].map .ok) ∧
    (memStub "tx1" ⟨1, 0⟩).GetHistoryForKey
        { State := [("GADGET2", "[2,3]"), ("GADGET1", "7")],
          History := [("GADGET1", ⟨"a", "7", ⟨5, 0⟩, false⟩), ("GADGET1", ⟨"b", "", ⟨6, 0⟩, true⟩)] }
        "GADGET1"
      = .ok ([⟨"a", "7", ⟨5, 0⟩, false⟩, ⟨"b", "", ⟨6, 0⟩, true⟩].map .ok) ∧
    (∃ p, Invoke refJson refTime (memStub "tx1" ⟨1, 0⟩)
        { State := [("GADGET2", "[2,3]"), ("GADGET1", "7")],
          History := [("GADGET1", ⟨"a", "7", ⟨5, 0⟩, false⟩), ("GADGET1", ⟨"b", "", ⟨6, 0⟩, true⟩)] }
        "queryAllGadgets" []
        = (shim.Success (some p),
            { State := [("GADGET2", "[2,3]"), ("GADGET1", "7")],
              History := [("GADGET1", ⟨"a", "7", ⟨5, 0⟩, false⟩),
                ("GADGET1", ⟨"b", "", ⟨6, 0⟩, true⟩)] }) ∧
        ArrayShape ([⟨"GADGET1", "7"⟩, ⟨"GADGET2", "[2,3]"⟩].map renderKV) p) ∧
    (∃ q, Invoke refJson refTime (memStub "tx1" ⟨1, 0⟩)
        { State := [("GADGET2", "[2,3]"), ("GADGET1", "7")],
          History := [("GADGET1", ⟨"a", "7", ⟨5, 0⟩, false⟩), ("GADGET1", ⟨"b", "", ⟨6, 0⟩, true⟩)] }
        "getGadgetHistory" ["GADGET1"]
        = (shim.Success (some q),
            { State := [("GADGET2", "[2,3]"), ("GADGET1", "7")],
              History := [("GADGET1", ⟨"a", "7", ⟨5, 0⟩, false⟩),
                ("GADGET1", ⟨"b", "", ⟨6, 0⟩, true⟩)] }) ∧
        ArrayShape ([⟨"a", "7", ⟨5, 0⟩, false⟩, ⟨"b", "", ⟨6, 0⟩, true⟩].map
          (renderHistory refTime)) q) :=
  have h := C7_array_shape refJson refTime (memStub "tx1" ⟨1, 0⟩)
    { State := [("GADGET2", "[2,3]"), ("GADGET1", "7")],
      History := [("GADGET1", ⟨"a", "7", ⟨5, 0⟩, false⟩), ("GADGET1", ⟨"b", "", ⟨6, 0⟩, true⟩)] }
    [] "GADGET1" [] [⟨"GADGET1", "7"⟩, ⟨"GADGET2", "[2,3]"⟩]
    [⟨"a", "7", ⟨5, 0⟩, false⟩, ⟨"b", "", ⟨6, 0⟩, true⟩]
  ⟨rfl, rfl, h.1 rfl, h.2 rfl⟩

/-- C10: behind any stub, when some Next call of the history iterator
(respectively of the range iterator) fails, getGadgetHistory (respectively
queryAllGadgets) returns the error with the ledger's message and no payload,
whatever the number of entries delivered before the failure. -/
theorem C10_iterator_failure {σ : Type} (J : Json) (T : Int → Int → String)
    (stub : ChaincodeStub σ) (s : σ) (args : List String) (key : String) (more : List String)
    (pre : List KeyModification) (err : String) (rest : Iterator KeyModification)
    (preKV : List KV) (errKV : String) (restKV : Iterator KV) :
    (stub.GetHistoryForKey s key = .ok (pre.map .ok ++ .error err :: rest) →
      Invoke J T stub s "getGadgetHistory" (key :: more) = (shim.Error err, s) ∧
      (Invoke J T stub s "getGadgetHistory" (key :: more)).1.Payload = none) ∧
    (stub.GetStateByRange s "GADGET0" "GADGET999"
        = .ok (preKV.map .ok ++ .error errKV :: restKV) →
      Invoke J T stub s "queryAllGadgets" args = (shim.Error errKV, s) ∧
      (Invoke J T stub s "queryAllGadgets" args).1.Payload = none) := by
  refine ⟨?_, ?_⟩
  · intro h
    have hlen : ¬ (key :: more).length < 1 := by simp
    have hr : Invoke J T stub s "getGadgetHistory" (key :: more) = (shim.Error err, s) := by
      simp only [Invoke_getGadgetHistory, getGadgetHistory, if_neg hlen, List.getD_cons_zero, h,
        historyLoop_error]
    exact ⟨hr, by rw [hr]; rfl⟩
  · intro h
    have hr : Invoke J T stub s "queryAllGadgets" args = (shim.Error errKV, s) := by
      simp only [Invoke_queryAllGadgets, queryAllGadgets, h, queryAllLoop_error]
    exact ⟨hr, by rw [hr]; rfl⟩

/-- C10, with iterators that fail after two entries and go on afterwards. -/
theorem C10_iterator_failure_witness :
    (scriptedStub
        (.ok [.ok ⟨"GADGET1", "1"⟩, .ok ⟨"GADGET2", "2"⟩, .error "range broke", .ok ⟨"GADGET3", "3"⟩])
        (.ok [.ok ⟨"a", "1", ⟨5, 0⟩, false⟩, .ok ⟨"b", "2", ⟨6, 0⟩, false⟩, .error "history broke",
          .ok ⟨"c", "", ⟨7, 0⟩, true⟩])).GetHistoryForKey Ledger.empty "GADGET1"
      = .ok ([⟨"a", "1", ⟨5, 0⟩, false⟩, ⟨"b", "2", ⟨6, 0⟩, false⟩].map .ok
          ++ .error "history broke" :: [.ok ⟨"c", "", ⟨7, 0⟩, true⟩]) ∧
    (scriptedStub
        (.ok [.ok ⟨"GADGET1", "1"⟩, .ok ⟨"GADGET2", "2"⟩, .error "range broke", .ok ⟨"GADGET3", "3"⟩])
        (.ok [.ok ⟨"a", "1", ⟨5, 0⟩, false⟩, .ok ⟨"b", "2", ⟨6, 0⟩, false⟩, .error "history broke",
          .ok ⟨"c", "", ⟨7, 0⟩, true⟩])).GetStateByRange Ledger.empty "GADGET0" "GADGET999"
      = .ok ([⟨"GADGET1", "1"⟩, ⟨"GADGET2", "2"⟩].map .ok
          ++ .error "range broke" :: [.ok ⟨"GADGET3", "3"⟩]) ∧
    (Invoke refJson refTime
        (scriptedStub
          (.ok [.ok ⟨"GADGET1", "1"⟩, .ok ⟨"GADGET2", "2"⟩, .error "range broke",
            .ok ⟨"GADGET3", "3"⟩])
          (.ok [.ok ⟨"a", "1", ⟨5, 0⟩, false⟩, .ok ⟨"b", "2", ⟨6, 0⟩, false⟩,
            .error "history broke", .ok ⟨"c", "", ⟨7, 0⟩, true⟩]))
        Ledger.empty "getGadgetHistory" ["GADGET1"]
      = (shim.Error "history broke", Ledger.empty)) ∧
    (Invoke refJson refTime
        (scriptedStub
          (.ok [.ok ⟨"GADGET1", "1"⟩, .ok ⟨"GADGET2", "2"⟩, .error "range broke",
            .ok ⟨"GADGET3", "3"⟩])
          (.ok [.ok ⟨"a", "1", ⟨5, 0⟩, false⟩, .ok ⟨"b", "2", ⟨6, 0⟩, false⟩,
            .error "history broke", .ok ⟨"c", "", ⟨7, 0⟩, true⟩]))
        Ledger.empty "queryAllGadgets" []
      = (shim.Error "range broke", Ledger.empty)) :=
  have h := C10_iterator_failure refJson refTime
    (scriptedStub
      (.ok [.ok ⟨"GADGET1", "1"⟩, .ok ⟨"GADGET2", "2"⟩, .error "range broke",
        .ok ⟨"GADGET3", "3"⟩])
      (.ok [.ok ⟨"a", "1", ⟨5, 0⟩, false⟩, .ok ⟨"b", "2", ⟨6, 0⟩, false⟩,
        .error "history broke", .ok ⟨"c", "", ⟨7, 0⟩, true⟩]))
    Ledger.empty [] "GADGET1" []
    [⟨"a", "1", ⟨5, 0⟩, false⟩, ⟨"b", "2", ⟨6, 0⟩, false⟩] "history broke"
    [.ok ⟨"c", "", ⟨7, 0⟩, true⟩]
    [⟨"GADGET1", "1"⟩, ⟨"GADGET2", "2"⟩] "range broke" [.ok ⟨"GADGET3", "3"⟩]
  ⟨rfl, rfl, (h.1 rfl).1, (h.2 rfl).1⟩

/-! ## The change log -/

theorem Ledger.historyOf_put_same (txId : String) (ts : Timestamp) (l : Ledger)
    (key value : String) :
    (l.put txId ts key value).historyOf key
      = l.historyOf key ++ [⟨txId, value, ts, false⟩] := by
  simp [Ledger.put, Ledger.historyOf, List.filter_append]

theorem Ledger.historyOf_del_same (txId : String) (ts : Timestamp) (l : Ledger) (key : String) :
    (l.del txId ts key).historyOf key = l.historyOf key ++ [⟨txId, "", ts, true⟩] := by
  simp [Ledger.del, Ledger.historyOf, List.filter_append]

/-- C8, as stated, fails at the empty key: the ledger refuses both puts, so
after createGadget and changeGadgetOwner (both return success) the key has no
value, deleteGadget returns the not-found error, and getGadgetHistory returns
an array of no entries, not three. -/
theorem C8_empty_key_counterexample :
    Ledger.empty.historyOf "" = [] ∧
    Invoke refJson refTime (memStub "tx3" ⟨3, 0⟩)
        (Invoke refJson refTime (memStub "tx2" ⟨2, 0⟩)
          (Invoke refJson refTime (memStub "tx1" ⟨1, 0⟩) Ledger.empty "createGadget"
            ["", "Sony", "Bravia10", "Black", "Karthick"]).2
          "changeGadgetOwner" ["", "Asha"]).2
        "deleteGadget" [""]
      = (shim.Error "\x7b\"Error\":\"gadget does not exist: \"\x7d", Ledger.empty) ∧
    (Invoke refJson refTime (memStub "tx4" ⟨4, 0⟩)
        (Invoke refJson refTime (memStub "tx3" ⟨3, 0⟩)
          (Invoke refJson refTime (memStub "tx2" ⟨2, 0⟩)
            (Invoke refJson refTime (memStub "tx1" ⟨1, 0⟩) Ledger.empty "createGadget"
              ["", "Sony", "Bravia10", "Black", "Karthick"]).2
            "changeGadgetOwner" ["", "Asha"]).2
          "deleteGadget" [""]).2
        "getGadgetHistory" [""]).1 = shim.Success (some "[]") := by
  decide

/-- C8, amended: on the in-memory ledger, where every put and delete that is
carried out appends one change-log entry for its key, for every key other than
the empty one with empty history, after createGadget, changeGadgetOwner and
deleteGadget on that key (each succeeds), getGadgetHistory on [key] returns an
array of exactly three entries in invocation order: the created record, the
record with the new owner, and a last entry rendered with Value null and
IsDelete true. -/
theorem C8_history_after_create_change_delete (J : Json) (T : Int → Int → String)
    (tx1 tx2 tx3 tx4 : String) (ts1 ts2 ts3 ts4 : Timestamp) (l : Ledger)
    (key make model colour owner o2 : String)
    (hk : key ≠ "")
    (h0 : l.historyOf key = [])
    (hJ : J.RoundTrips ⟨make, model, colour, owner⟩)
    (hJ2 : (J.Unmarshal (J.Marshal ⟨make, model, colour, o2⟩) Gadget.zero).2 = none) :
    (Invoke J T (memStub tx3 ts3)
        (Invoke J T (memStub tx2 ts2)
          (Invoke J T (memStub tx1 ts1) l "createGadget" [key, make, model, colour, owner]).2
          "changeGadgetOwner" [key, o2]).2
        "deleteGadget" [key]).1 = shim.Success none ∧
    (Invoke J T (memStub tx4 ts4)
        (Invoke J T (memStub tx3 ts3)
          (Invoke J T (memStub tx2 ts2)
            (Invoke J T (memStub tx1 ts1) l "createGadget" [key, make, model, colour, owner]).2
            "changeGadgetOwner" [key, o2]).2
          "deleteGadget" [key]).2
        "getGadgetHistory" [key]).1
      = shim.Success (some ("[" ++
          renderHistory T ⟨tx1, J.Marshal ⟨make, model, colour, owner⟩, ts1, false⟩ ++ "," ++
          renderHistory T ⟨tx2, J.Marshal ⟨make, model, colour, o2⟩, ts2, false⟩ ++ "," ++
          renderHistory T ⟨tx3, "", ts3, true⟩ ++ "]")) ∧
    renderHistory T ⟨tx3, "", ts3, true⟩
      = "\x7b\"TxId\":\"" ++ tx3 ++ "\", \"Value\":null, \"Timestamp\":\""
          ++ T ts3.Seconds ts3.Nanos ++ "\", \"IsDelete\":\"true\"\x7d" := by
  have h1 : Invoke J T (memStub tx1 ts1) l "createGadget" [key, make, model, colour, owner]
      = (shim.Success none, l.put tx1 ts1 key (J.Marshal ⟨make, model, colour, owner⟩)) := by
    simp [Invoke_createGadget, createGadget, memStub, hk]
  have hU : J.Unmarshal (J.Marshal ⟨make, model, colour, owner⟩) Gadget.zero
      = (⟨make, model, colour, owner⟩, none) := hJ
  have h2 : Invoke J T (memStub tx2 ts2)
      (l.put tx1 ts1 key (J.Marshal ⟨make, model, colour, owner⟩)) "changeGadgetOwner" [key, o2]
      = (shim.Success none,
          (l.put tx1 ts1 key (J.Marshal ⟨make, model, colour, owner⟩)).put tx2 ts2 key
            (J.Marshal ⟨make, model, colour, o2⟩)) := by
    simp [Invoke_changeGadgetOwner, changeGadgetOwner, memStub, Ledger.get_put_same, bytesOf,
      hU, hk]
  have h3 : Invoke J T (memStub tx3 ts3)
      ((l.put tx1 ts1 key (J.Marshal ⟨make, model, colour, owner⟩)).put tx2 ts2 key
        (J.Marshal ⟨make, model, colour, o2⟩)) "deleteGadget" [key]
      = (shim.Success none,
          ((l.put tx1 ts1 key (J.Marshal ⟨make, model, colour, owner⟩)).put tx2 ts2 key
            (J.Marshal ⟨make, model, colour, o2⟩)).del tx3 ts3 key) := by
    simp [Invoke_deleteGadget, deleteGadget, memStub, Ledger.get_put_same, bytesOf, hJ2]
  have hh : (memStub tx4 ts4).GetHistoryForKey
      (((l.put tx1 ts1 key (J.Marshal ⟨make, model, colour, owner⟩)).put tx2 ts2 key
        (J.Marshal ⟨make, model, colour, o2⟩)).del tx3 ts3 key) key
      = .ok ([⟨tx1, J.Marshal ⟨make, model, colour, owner⟩, ts1, false⟩,
          ⟨tx2, J.Marshal ⟨make, model, colour, o2⟩, ts2, false⟩,
          ⟨tx3, "", ts3, true⟩].map .ok) := by
    simp [memStub, Ledger.historyOf_del_same, Ledger.historyOf_put_same, h0]
  refine ⟨?_, ?_, ?_⟩
  · rw [h1, h2, h3]
  · rw [h1, h2, h3, Invoke_getGadgetHistory, getGadgetHistory_payload T _ _ key [] _ hh,
      encodeArray_eq]
    simp [joinComma, String.append_assoc]
  · apply String.ext
    simp [renderHistory, FormatBool]

/-- C8 amended, on the empty ledger with the reference codec. -/
theorem C8_history_after_create_change_delete_witness :
    "GADGET9" ≠ "" ∧
    Ledger.empty.historyOf "GADGET9" = [] ∧
    refJson.RoundTrips ⟨"Sony", "Bravia10", "Black", "Karthick"⟩ ∧
    (refJson.Unmarshal (refJson.Marshal ⟨"Sony", "Bravia10", "Black", "Asha"⟩) Gadget.zero).2
      = none ∧
    (Invoke refJson refTime (memStub "tx4" ⟨4, 0⟩)
        (Invoke refJson refTime (memStub "tx3" ⟨3, 0⟩)
          (Invoke refJson refTime (memStub "tx2" ⟨2, 0⟩)
            (Invoke refJson refTime (memStub "tx1" ⟨1, 0⟩) Ledger.empty "createGadget"
              ["GADGET9", "Sony", "Bravia10", "Black", "Karthick"]).2
            "changeGadgetOwner" ["GADGET9", "Asha"]).2
          "deleteGadget" ["GADGET9"]).2
        "getGadgetHistory" ["GADGET9"]).1
      = shim.Success (some ("[" ++
          renderHistory refTime
            ⟨"tx1", refJson.Marshal ⟨"Sony", "Bravia10", "Black", "Karthick"⟩, ⟨1, 0⟩, false⟩
          ++ "," ++
          renderHistory refTime
            ⟨"tx2", refJson.Marshal ⟨"Sony", "Bravia10", "Black", "Asha"⟩, ⟨2, 0⟩, false⟩
          ++ "," ++
          renderHistory refTime ⟨"tx3", "", ⟨3, 0⟩, true⟩ ++ "]")) :=
  ⟨by decide, by decide, by decide, by decide,
   (C8_history_after_create_change_delete refJson refTime "tx1" "tx2" "tx3" "tx4"
     ⟨1, 0⟩ ⟨2, 0⟩ ⟨3, 0⟩ ⟨4, 0⟩ Ledger.empty "GADGET9" "Sony" "Bravia10" "Black" "Karthick"
     "Asha" (by decide) (by decide) (by decide) (by decide)).2.1⟩

/-! ## Seeding -/

theorem Ledger.get_put (txId : String) (ts : Timestamp) (l : Ledger) (key value k2 : String) :
    (l.put txId ts key value).get k2 = if k2 = key then some value else l.get k2 := by
  by_cases h : k2 = key
  · subst h
    rw [if_pos rfl, Ledger.get_put_same]
  · rw [if_neg h, Ledger.get_put_other _ _ _ _ _ _ h]

theorem initLedger_memStub (J : Json) (txId : String) (ts : Timestamp) (l : Ledger) :
    initLedger J (memStub txId ts) l
      = (shim.Success none,
          ((((((((l.put txId ts "GADGET0" (J.Marshal ⟨"Samsung", "GalS10", "blue", "Shyam"⟩)).put
            txId ts "GADGET1" (J.Marshal ⟨"Apple", "Ipod", "black", "Sravan"⟩)).put
            txId ts "GADGET2" (J.Marshal ⟨"Apple", "AirMac", "Silver", "Pavan"⟩)).put
            txId ts "GADGET3" (J.Marshal ⟨"Sony", "Bravia10", "Black", "Karthick"⟩)).put
            txId ts "GADGET4" (J.Marshal ⟨"SkullCandy", "EarPhones", "black", "Jhon"⟩)).put
            txId ts "GADGET5" (J.Marshal ⟨"Nokia", "N72", "Black", "Lalitha"⟩)).put
            txId ts "GADGET6" (J.Marshal ⟨"MI", "MI20", "Gray", "Jack"⟩)).put
            txId ts "GADGET7" (J.Marshal ⟨"Samsung", "GalS10Plus", "DarkBlack", "Akram"⟩))) := by
  rfl

theorem initLedger_get (J : Json) (txId : String) (ts : Timestamp) (l : Ledger) (k : String) :
    (initLedger J (memStub txId ts) l).2.get k
      = if k = "GADGET7" then some (J.Marshal ⟨"Samsung", "GalS10Plus", "DarkBlack", "Akram"⟩)
        else if k = "GADGET6" then some (J.Marshal ⟨"MI", "MI20", "Gray", "Jack"⟩)
        else if k = "GADGET5" then some (J.Marshal ⟨"Nokia", "N72", "Black", "Lalitha"⟩)
        else if k = "GADGET4" then
          some (J.Marshal ⟨"SkullCandy", "EarPhones", "black", "Jhon"⟩)
        else if k = "GADGET3" then some (J.Marshal ⟨"Sony", "Bravia10", "Black", "Karthick"⟩)
        else if k = "GADGET2" then some (J.Marshal ⟨"Apple", "AirMac", "Silver", "Pavan"⟩)
        else if k = "GADGET1" then some (J.Marshal ⟨"Apple", "Ipod", "black", "Sravan"⟩)
        else if k = "GADGET0" then some (J.Marshal ⟨"Samsung", "GalS10", "blue", "Shyam"⟩)
        else l.get k := by
  rw [initLedger_memStub]
  simp only [Ledger.get_put]

/-- C9: from every state of the in-memory ledger initLedger succeeds; afterwards
the keys GADGET0 … GADGET7 hold the serializations of the eight fixed sample
records and every other key holds what it held before; invoked a second time it
succeeds again and every key holds what it held after the first invocation. -/
theorem C9_initLedger_seeds_eight (J : Json) (T : Int → Int → String)
    (tx1 tx2 : String) (ts1 ts2 : Timestamp) (l : Ledger) (args args2 : List String) :
    (Invoke J T (memStub tx1 ts1) l "initLedger" args).1 = shim.Success none ∧
    (Invoke J T (memStub tx1 ts1) l "initLedger" args).2.get "GADGET0"
      = some (J.Marshal ⟨"Samsung", "GalS10", "blue", "Shyam"⟩) ∧
    (Invoke J T (memStub tx1 ts1) l "initLedger" args).2.get "GADGET1"
      = some (J.Marshal ⟨"Apple", "Ipod", "black", "Sravan"⟩) ∧
    (Invoke J T (memStub tx1 ts1) l "initLedger" args).2.get "GADGET2"
      = some (J.Marshal ⟨"Apple", "AirMac", "Silver", "Pavan"⟩) ∧
    (Invoke J T (memStub tx1 ts1) l "initLedger" args).2.get "GADGET3"
      = some (J.Marshal ⟨"Sony", "Bravia10", "Black", "Karthick"⟩) ∧
    (Invoke J T (memStub tx1 ts1) l "initLedger" args).2.get "GADGET4"
      = some (J.Marshal ⟨"SkullCandy", "EarPhones", "black", "Jhon"⟩) ∧
    (Invoke J T (memStub tx1 ts1) l "initLedger" args).2.get "GADGET5"
      = some (J.Marshal ⟨"Nokia", "N72", "Black", "Lalitha"⟩) ∧
    (Invoke J T (memStub tx1 ts1) l "initLedger" args).2.get "GADGET6"
      = some (J.Marshal ⟨"MI", "MI20", "Gray", "Jack"⟩) ∧
    (Invoke J T (memStub tx1 ts1) l "initLedger" args).2.get "GADGET7"
      = some (J.Marshal ⟨"Samsung", "GalS10Plus", "DarkBlack", "Akram"⟩) ∧
    (∀ k, k ∉ ["GADGET0", "GADGET1", "GADGET2", "GADGET3", "GADGET4", "GADGET5", "GADGET6",
        "GADGET7"] →
      (Invoke J T (memStub tx1 ts1) l "initLedger" args).2.get k = l.get k) ∧
    (Invoke J T (memStub tx2 ts2) (Invoke J T (memStub tx1 ts1) l "initLedger" args).2
        "initLedger" args2).1 = shim.Success none ∧
    (∀ k, (Invoke J T (memStub tx2 ts2) (Invoke J T (memStub tx1 ts1) l "initLedger" args).2
        "initLedger" args2).2.get k
      = (Invoke J T (memStub tx1 ts1) l "initLedger" args).2.get k) := by
  simp only [Invoke_initLedger, initLedger_get]
  refine ⟨rfl, by simp, by simp, by simp, by simp, by simp, by simp, by simp, by simp, ?_,
    rfl, ?_⟩
  · intro k hk
    simp only [List.mem_cons, List.mem_singleton, List.not_mem_nil, not_or, or_false] at hk
    obtain ⟨h0, h1, h2, h3, h4, h5, h6, h7⟩ := hk
    simp only [if_neg h0, if_neg h1, if_neg h2, if_neg h3, if_neg h4, if_neg h5, if_neg h6,
      if_neg h7]
  · intro k
    split_ifs <;> rfl

/-- C9, at the key "PHONE1" of a ledger that holds it. -/
theorem C9_initLedger_seeds_eight_witness :
    "PHONE1" ∉ ["GADGET0", "GADGET1", "GADGET2", "GADGET3", "GADGET4", "GADGET5", "GADGET6",
        "GADGET7"] ∧
    (Invoke refJson refTime (memStub "tx1" ⟨1, 0⟩)
        { State := [("PHONE1", "p"), ("GADGET3", "old")], History := [] }
        "initLedger" []).2.get "PHONE1"
      = Ledger.get { State := [("PHONE1", "p"), ("GADGET3", "old")], History := [] } "PHONE1" :=
  ⟨by decide,
   (C9_initLedger_seeds_eight refJson refTime "tx1" "tx2" ⟨1, 0⟩ ⟨2, 0⟩
     { State := [("PHONE1", "p"), ("GADGET3", "old")], History := [] } [] []).2.2.2.2.2.2.2.2.2.1
     "PHONE1" (by decide)⟩

/-! ## The key order and the range query of the in-memory ledger -/

theorem char_eq_of_toNat_eq (c d : Char) (h : c.toNat = d.toNat) : c = d := by
  apply Char.ext
  apply UInt32.ext
  exact h

theorem ltChars_irrefl (a : List Char) : ltChars a a = false := by
  induction a with
  | nil => rfl
  | cons c cs ih => simp [ltChars, ih]

theorem ltChars_trans (a b c : List Char) (h1 : ltChars a b = true) (h2 : ltChars b c = true) :
    ltChars a c = true := by
  induction a generalizing b c with
  | nil =>
    cases c with
    | nil => cases b <;> simp [ltChars] at h2
    | cons z zs => rfl
  | cons x xs ih =>
    cases b with
    | nil => simp [ltChars] at h1
    | cons y ys =>
      cases c with
      | nil => simp [ltChars] at h2
      | cons z zs =>
        simp only [ltChars] at h1 h2 ⊢
        by_cases hxy : x.toNat < y.toNat
        · by_cases hyz : y.toNat < z.toNat
          · have : x.toNat < z.toNat := by omega
            simp [this]
          · by_cases e : y = z
            · subst e
              simp [hxy]
            · simp [hyz, e] at h2
        · by_cases e1 : x = y
          · subst e1
            by_cases hyz : x.toNat < z.toNat
            · simp [hyz]
            · by_cases e : x = z
              · subst e
                simp only [lt_self_iff_false, if_false, if_true] at h1 h2 ⊢
                exact ih ys zs h1 h2
              · simp [hyz, e] at h2
          · simp [hxy, e1] at h1

theorem ltChars_total (a b : List Char) (h1 : ltChars a b = false) (h2 : a ≠ b) :
    ltChars b a = true := by
  induction a generalizing b with
  | nil =>
    cases b with
    | nil => exact absurd rfl h2
    | cons y ys => simp [ltChars] at h1
  | cons x xs ih =>
    cases b with
    | nil => rfl
    | cons y ys =>
      simp only [ltChars] at h1 ⊢
      by_cases hxy : x.toNat < y.toNat
      · simp [hxy] at h1
      · by_cases e : x = y
        · subst e
          simp only [lt_self_iff_false, if_false, if_true] at h1 ⊢
          exact ih ys h1 (fun h => h2 (by rw [h]))
        · have hne : x.toNat ≠ y.toNat := fun h => e (char_eq_of_toNat_eq x y h)
          have : y.toNat < x.toNat := by omega
          simp [this]

theorem keyLt_irrefl (a : String) : keyLt a a = false := ltChars_irrefl a.data

theorem keyLt_trans (a b c : String) (h1 : keyLt a b = true) (h2 : keyLt b c = true) :
    keyLt a c = true := ltChars_trans _ _ _ h1 h2

theorem keyLt_total (a b : String) (h1 : keyLt a b = false) (h2 : a ≠ b) : keyLt b a = true :=
  ltChars_total _ _ h1 (fun h => h2 (String.ext h))

theorem mem_insertKey_self (p : KV) (qs : List KV) : p ∈ insertKey p qs := by
  induction qs with
  | nil => simp [insertKey]
  | cons q qs ih =>
    simp only [insertKey]
    split
    · simp
    · split
      · simp
      · exact List.mem_cons_of_mem _ ih

theorem mem_insertKey_of_mem (p x : KV) (qs : List KV) (hx : x ∈ qs) (hk : x.Key ≠ p.Key) :
    x ∈ insertKey p qs := by
  induction qs with
  | nil => cases hx
  | cons q qs ih =>
    simp only [insertKey]
    split
    · exact List.mem_cons_of_mem _ hx
    · split
      · rename_i hpq
        rcases List.mem_cons.1 hx with h | h
        · subst h
          exact absurd hpq.symm hk
        · exact List.mem_cons_of_mem _ h
      · rcases List.mem_cons.1 hx with h | h
        · subst h
          exact List.mem_cons_self _ _
        · exact List.mem_cons_of_mem _ (ih h)

theorem mem_insertKey (p x : KV) (qs : List KV) (hs : KeySorted qs) (hx : x ∈ insertKey p qs) :
    x = p ∨ (x ∈ qs ∧ x.Key ≠ p.Key) := by
  induction qs with
  | nil =>
    simp only [insertKey, List.mem_singleton] at hx
    exact Or.inl hx
  | cons q qs ih =>
    have hq := List.pairwise_cons.1 hs
    simp only [insertKey] at hx
    split at hx
    · rename_i hlt
      rcases List.mem_cons.1 hx with h | h
      · exact Or.inl h
      · refine Or.inr ⟨h, ?_⟩
        intro he
        rcases List.mem_cons.1 h with h2 | h2
        · subst h2
          rw [he, keyLt_irrefl] at hlt
          cases hlt
        · have := keyLt_trans _ _ _ hlt (hq.1 x h2)
          rw [he, keyLt_irrefl] at this
          cases this
    · split at hx
      · rename_i hpq
        rcases List.mem_cons.1 hx with h | h
        · exact Or.inl h
        · refine Or.inr ⟨List.mem_cons_of_mem _ h, ?_⟩
          intro he
          have := hq.1 x h
          rw [he, hpq, keyLt_irrefl] at this
          cases this
      · rename_i hpq
        rcases List.mem_cons.1 hx with h | h
        · subst h
          exact Or.inr ⟨List.mem_cons_self _ _, fun he => hpq he.symm⟩
        · rcases ih hq.2 h with h2 | ⟨h2, h3⟩
          · exact Or.inl h2
          · exact Or.inr ⟨List.mem_cons_of_mem _ h2, h3⟩

theorem insertKey_sorted (p : KV) (qs : List KV) (hs : KeySorted qs) :
    KeySorted (insertKey p qs) := by
  induction qs with
  | nil => simp [insertKey, KeySorted]
  | cons q qs ih =>
    have hq := List.pairwise_cons.1 hs
    simp only [insertKey]
    split
    · rename_i hlt
      refine List.pairwise_cons.2 ⟨?_, hs⟩
      intro y hy
      rcases List.mem_cons.1 hy with h | h
      · subst h
        exact hlt
      · exact keyLt_trans _ _ _ hlt (hq.1 y h)
    · split
      · rename_i hpq
        refine List.pairwise_cons.2 ⟨?_, hq.2⟩
        intro y hy
        rw [hpq]
        exact hq.1 y hy
      · rename_i hlt hpq
        refine List.pairwise_cons.2 ⟨?_, ih hq.2⟩
        intro y hy
        rcases mem_insertKey p y qs hq.2 hy with h | ⟨h, _⟩
        · subst h
          exact keyLt_total _ _ (by simpa using hlt) hpq
        · exact hq.1 y h

theorem sortByKey_sorted (st : List (String × String)) : KeySorted (sortByKey st) := by
  induction st with
  | nil => exact List.Pairwise.nil
  | cons p st ih =>
    obtain ⟨k, v⟩ := p
    exact insertKey_sorted _ _ ih

theorem mem_sortByKey (st : List (String × String)) (k v : String) :
    (⟨k, v⟩ : KV) ∈ sortByKey st ↔ st.lookup k = some v := by
  induction st with
  | nil => simp [sortByKey]
  | cons p st ih =>
    obtain ⟨k0, v0⟩ := p
    simp only [sortByKey, List.lookup_cons]
    by_cases hk : k = k0
    · subst hk
      simp only [beq_self_eq_true]
      constructor
      · intro h
        rcases mem_insertKey _ _ _ (sortByKey_sorted st) h with h2 | ⟨_, h2⟩
        · cases h2
          rfl
        · exact absurd rfl h2
      · intro h
        cases h
        exact mem_insertKey_self _ _
    · have hb : (k == k0) = false := by simpa using hk
      simp only [hb]
      constructor
      · intro h
        rcases mem_insertKey _ _ _ (sortByKey_sorted st) h with h2 | ⟨h2, _⟩
        · cases h2
          exact absurd rfl hk
        · exact ih.1 h2
      · intro h
        exact mem_insertKey_of_mem _ _ _ (ih.2 h) hk

theorem Ledger.mem_range (l : Ledger) (a b k v : String) :
    (⟨k, v⟩ : KV) ∈ l.range a b
      ↔ l.get k = some v ∧ keyLe a k = true ∧ keyLt k b = true := by
  simp [Ledger.range, Ledger.get, List.mem_filter, mem_sortByKey]

theorem Ledger.range_sorted (l : Ledger) (a b : String) : KeySorted (l.range a b) :=
  List.Pairwise.filter _ (sortByKey_sorted l.State)

/-- C11: behind any stub queryAllGadgets asks for the range from "GADGET0" to
"GADGET999" and for nothing else, and its payload has one item per pair
delivered, in delivery order; over the in-memory ledger, whose range query
delivers the keys k with GADGET0 ≤ k < GADGET999 in key order, every listed key
lies in that interval, every key with a current value in the interval is
listed, and the listed pairs are the current values in increasing key order. -/
theorem C11_queryAllGadgets_range {σ : Type} (J : Json) (T : Int → Int → String)
    (stub : ChaincodeStub σ) (s : σ) (args : List String) (kvs : List KV)
    (txId : String) (ts : Timestamp) (l : Ledger) :
    (∀ stub2 : ChaincodeStub σ,
      stub2.GetStateByRange s "GADGET0" "GADGET999"
        = stub.GetStateByRange s "GADGET0" "GADGET999" →
      Invoke J T stub2 s "queryAllGadgets" args = Invoke J T stub s "queryAllGadgets" args) ∧
    (stub.GetStateByRange s "GADGET0" "GADGET999" = .ok (kvs.map .ok) →
      Invoke J T stub s "queryAllGadgets" args
        = (shim.Success (some ("[" ++ ",".intercalate (kvs.map renderKV) ++ "]")), s)) ∧
    (∃ items : List KV,
      (memStub txId ts).GetStateByRange l "GADGET0" "GADGET999" = .ok (items.map .ok) ∧
      Invoke J T (memStub txId ts) l "queryAllGadgets" args
        = (shim.Success (some ("[" ++ ",".intercalate (items.map renderKV) ++ "]")), l) ∧
      (∀ kv ∈ items, keyLe "GADGET0" kv.Key = true ∧ keyLt kv.Key "GADGET999" = true) ∧
      (∀ k v, l.get k = some v → keyLe "GADGET0" k = true → keyLt k "GADGET999" = true →
        (⟨k, v⟩ : KV) ∈ items) ∧
      (∀ kv ∈ items, l.get kv.Key = some kv.Value) ∧
      KeySorted items) := by
  refine ⟨?_, ?_, l.range "GADGET0" "GADGET999", rfl, ?_, ?_, ?_, ?_, ?_⟩
  · intro stub2 h
    simp only [Invoke_queryAllGadgets, queryAllGadgets, h]
  · intro h
    rw [Invoke_queryAllGadgets, queryAllGadgets_payload stub s kvs h, encodeArray]
  · rw [Invoke_queryAllGadgets, queryAllGadgets_payload (memStub txId ts) l _ rfl, encodeArray]
  · intro kv hkv
    obtain ⟨k, v⟩ := kv
    exact ((Ledger.mem_range l _ _ k v).1 hkv).2
  · intro k v hv h1 h2
    exact (Ledger.mem_range l _ _ k v).2 ⟨hv, h1, h2⟩
  · intro kv hkv
    obtain ⟨k, v⟩ := kv
    exact ((Ledger.mem_range l _ _ k v).1 hkv).1
  · exact Ledger.range_sorted l _ _

/-- C11, on a ledger holding two keys inside the interval and two outside. -/
theorem C11_queryAllGadgets_range_witness :
    (memStub "tx1" ⟨1, 0⟩).GetStateByRange
        { State := [("PHONE1", "p"), ("GADGET5", "5"), ("GADGET999", "9"), ("GADGET10", "1")],
          History := [] } "GADGET0" "GADGET999"
      = .ok ([⟨"GADGET10", "1"⟩, ⟨"GADGET5", "5"⟩].map .ok) ∧
    Invoke refJson refTime (memStub "tx1" ⟨1, 0⟩)
        { State := [("PHONE1", "p"), ("GADGET5", "5"), ("GADGET999", "9"), ("GADGET10", "1")],
          History := [] } "queryAllGadgets" []
      = (shim.Success (some ("[" ++ ",".intercalate
            ([⟨"GADGET10", "1"⟩, ⟨"GADGET5", "5"⟩].map renderKV) ++ "]")),
          { State := [("PHONE1", "p"), ("GADGET5", "5"), ("GADGET999", "9"), ("GADGET10", "1")],
            History := [] }) :=
  ⟨rfl,
   (C11_queryAllGadgets_range refJson refTime (memStub "tx1" ⟨1, 0⟩)
     { State := [("PHONE1", "p"), ("GADGET5", "5"), ("GADGET999", "9"), ("GADGET10", "1")],
       History := [] } [] [⟨"GADGET10", "1"⟩, ⟨"GADGET5", "5"⟩] "tx1" ⟨1, 0⟩ Ledger.empty).2.1
     rfl⟩

/-! ## Outcomes of deleteGadget and changeGadgetOwner -/

theorem deleteGadget_cases {σ : Type} (J : Json) (stub : ChaincodeStub σ) (s : σ)
    (key : String) :
    deleteGadget J stub s [key] =
      if (stub.GetState s key).2 ≠ none then
        (shim.Error ("\x7b\"Error\":\"Failed to get state for " ++ key ++ "\"\x7d"), s)
      else if (stub.GetState s key).1 = none then
        (shim.Error ("\x7b\"Error\":\"gadget does not exist: " ++ key ++ "\"\x7d"), s)
      else if (J.Unmarshal (bytesOf (stub.GetState s key).1) Gadget.zero).2 ≠ none then
        (shim.Error ("\x7b\"Error\":\"Failed to decode JSON of: " ++ key ++ "\"\x7d"), s)
      else
        match (stub.DelState s key).2 with
        | some err => (shim.Error ("Failed to delete state:" ++ err), (stub.DelState s key).1)
        | none => (shim.Success none, (stub.DelState s key).1) := by
  have hlen : ¬ [key].length ≠ 1 := by simp
  simp only [deleteGadget, if_neg hlen, List.getD_cons_zero]
  rcases stub.DelState s key with ⟨s2, derr⟩
  cases derr <;> rfl

/-- C12: behind any stub, deleteGadget on [key] returns success exactly when
the ledger read reports no error, the key has a current value, the value
decodes without error and the ledger delete reports no error, and the state
is then the one the ledger delete left; when the value read does not decode it
returns the error "Failed to decode JSON of: <key>" (in the JSON wrapping the
code gives it) and the state is the one before; on the in-memory ledger a
successful deleteGadget leaves the key without current value. -/
theorem C12_deleteGadget_outcomes {σ : Type} (J : Json) (T : Int → Int → String)
    (stub : ChaincodeStub σ) (s : σ) (key : String)
    (txId : String) (ts : Timestamp) (l : Ledger) :
    ((Invoke J T stub s "deleteGadget" [key]).1.Status = shim.OK ↔
      (stub.GetState s key).2 = none ∧ (stub.GetState s key).1 ≠ none ∧
      (J.Unmarshal (bytesOf (stub.GetState s key).1) Gadget.zero).2 = none ∧
      (stub.DelState s key).2 = none) ∧
    ((Invoke J T stub s "deleteGadget" [key]).1.Status = shim.OK →
      Invoke J T stub s "deleteGadget" [key] = (shim.Success none, (stub.DelState s key).1)) ∧
    ((stub.GetState s key).2 = none → (stub.GetState s key).1 ≠ none →
      (J.Unmarshal (bytesOf (stub.GetState s key).1) Gadget.zero).2 ≠ none →
      Invoke J T stub s "deleteGadget" [key]
        = (shim.Error ("\x7b\"Error\":\"Failed to decode JSON of: " ++ key ++ "\"\x7d"), s)) ∧
    ((Invoke J T (memStub txId ts) l "deleteGadget" [key]).1.Status = shim.OK →
      (Invoke J T (memStub txId ts) l "deleteGadget" [key]).2.get key = none) := by
  have hne : shim.ERROR ≠ shim.OK := by decide
  have key1 : ∀ {τ : Type} (st : ChaincodeStub τ) (t : τ),
      (deleteGadget J st t [key]).1.Status = shim.OK →
      ((st.GetState t key).2 = none ∧ (st.GetState t key).1 ≠ none ∧
        (J.Unmarshal (bytesOf (st.GetState t key).1) Gadget.zero).2 = none ∧
        (st.DelState t key).2 = none) ∧
      deleteGadget J st t [key] = (shim.Success none, (st.DelState t key).1) := by
    intro τ st t h
    rw [deleteGadget_cases] at h ⊢
    by_cases h1 : (st.GetState t key).2 = none
    · by_cases h2 : (st.GetState t key).1 = none
      · rw [if_neg (not_not.2 h1), if_pos h2] at h
        exact absurd h hne
      · by_cases h3 : (J.Unmarshal (bytesOf (st.GetState t key).1) Gadget.zero).2 = none
        · rw [if_neg (not_not.2 h1), if_neg h2, if_neg (not_not.2 h3)] at h ⊢
          cases h4 : (st.DelState t key).2 with
          | none => exact ⟨⟨h1, h2, h3, rfl⟩, rfl⟩
          | some err =>
            rw [h4] at h
            exact absurd h hne
        · rw [if_neg (not_not.2 h1), if_neg h2, if_pos h3] at h
          exact absurd h hne
    · rw [if_pos h1] at h
      exact absurd h hne
  refine ⟨⟨?_, ?_⟩, ?_, ?_, ?_⟩
  · intro h
    rw [Invoke_deleteGadget] at h
    exact (key1 stub s h).1
  · rintro ⟨h1, h2, h3, h4⟩
    rw [Invoke_deleteGadget, deleteGadget_cases, if_neg (not_not.2 h1), if_neg h2,
      if_neg (not_not.2 h3), h4]
    rfl
  · intro h
    rw [Invoke_deleteGadget] at h ⊢
    exact (key1 stub s h).2
  · intro h1 h2 h3
    rw [Invoke_deleteGadget, deleteGadget_cases, if_neg (not_not.2 h1), if_neg h2, if_pos h3]
  · intro h
    rw [Invoke_deleteGadget] at h ⊢
    rw [(key1 (memStub txId ts) l h).2]
    exact Ledger.get_del_same txId ts l key

/-- C12, at a stored value that does not decode and at one that does. -/
theorem C12_deleteGadget_outcomes_witness :
    ((memStub "tx1" ⟨1, 0⟩).GetState
        { State := [("GADGET1", "junk")], History := [] } "GADGET1").2 = none ∧
    ((memStub "tx1" ⟨1, 0⟩).GetState
        { State := [("GADGET1", "junk")], History := [] } "GADGET1").1 ≠ none ∧
    (refJson.Unmarshal (bytesOf ((memStub "tx1" ⟨1, 0⟩).GetState
        { State := [("GADGET1", "junk")], History := [] } "GADGET1").1) Gadget.zero).2 ≠ none ∧
    Invoke refJson refTime (memStub "tx1" ⟨1, 0⟩)
        { State := [("GADGET1", "junk")], History := [] } "deleteGadget" ["GADGET1"]
      = (shim.Error "\x7b\"Error\":\"Failed to decode JSON of: GADGET1\"\x7d",
          { State := [("GADGET1", "junk")], History := [] }) ∧
    (Invoke refJson refTime (memStub "tx2" ⟨2, 0⟩)
        (Ledger.put "tx1" ⟨1, 0⟩ Ledger.empty "GADGET2"
          (refJson.Marshal ⟨"MI", "MI20", "Gray", "Jack"⟩))
        "deleteGadget" ["GADGET2"]).1.Status = shim.OK ∧
    (Invoke refJson refTime (memStub "tx2" ⟨2, 0⟩)
        (Ledger.put "tx1" ⟨1, 0⟩ Ledger.empty "GADGET2"
          (refJson.Marshal ⟨"MI", "MI20", "Gray", "Jack"⟩))
        "deleteGadget" ["GADGET2"]).2.get "GADGET2" = none :=
  ⟨by decide, by decide, by decide,
   (C12_deleteGadget_outcomes refJson refTime (memStub "tx1" ⟨1, 0⟩)
     { State := [("GADGET1", "junk")], History := [] } "GADGET1" "tx1" ⟨1, 0⟩
     Ledger.empty).2.2.1 (by decide) (by decide) (by decide),
   by decide,
   (C12_deleteGadget_outcomes refJson refTime (memStub "tx1" ⟨1, 0⟩) Ledger.empty "GADGET2"
     "tx2" ⟨2, 0⟩
     (Ledger.put "tx1" ⟨1, 0⟩ Ledger.empty "GADGET2"
       (refJson.Marshal ⟨"MI", "MI20", "Gray", "Jack"⟩))).2.2.2 (by decide)⟩

/-- C13, as stated, fails at the empty key: it has no current value, the
ledger refuses the put, changeGadgetOwner drops the error and returns success,
and afterwards the key still holds nothing. -/
theorem C13_empty_key_counterexample :
    Ledger.get { State := [("GADGET1", "v")], History := [] } "" = none ∧
    Invoke refJson refTime (memStub "tx1" ⟨1, 0⟩)
        { State := [("GADGET1", "v")], History := [] } "changeGadgetOwner" ["", "Asha"]
      = (shim.Success none, { State := [("GADGET1", "v")], History := [] }) ∧
    (Invoke refJson refTime (memStub "tx1" ⟨1, 0⟩)
        { State := [("GADGET1", "v")], History := [] }
        "changeGadgetOwner" ["", "Asha"]).2.get "" = none ∧
    (none : Option String) ≠ some (refJson.Marshal ⟨"", "", "", "Asha"⟩) := by
  decide

/-- C13, amended: on the in-memory ledger, for every key other than the empty
one without a current value and every new owner, changeGadgetOwner on
[key, newOwner] returns success and afterwards the key holds the serialization
of the record with empty make, model and colour and with owner newOwner, for a
codec that leaves the destination untouched on empty input (as
`json.Unmarshal` does). -/
theorem C13_changeGadgetOwner_absent_key (J : Json) (T : Int → Int → String)
    (txId : String) (ts : Timestamp) (l : Ledger) (key newOwner : String)
    (hk : key ≠ "")
    (h : l.get key = none)
    (hE : (J.Unmarshal "" Gadget.zero).1 = Gadget.zero) :
    (Invoke J T (memStub txId ts) l "changeGadgetOwner" [key, newOwner]).1
      = shim.Success none ∧
    (Invoke J T (memStub txId ts) l "changeGadgetOwner" [key, newOwner]).2.get key
      = some (J.Marshal ⟨"", "", "", newOwner⟩) := by
  have hr : Invoke J T (memStub txId ts) l "changeGadgetOwner" [key, newOwner]
      = (shim.Success none, l.put txId ts key (J.Marshal ⟨"", "", "", newOwner⟩)) := by
    simp [Invoke_changeGadgetOwner, changeGadgetOwner, memStub, h, bytesOf, hE, hk]
    rfl
  rw [hr]
  exact ⟨rfl, Ledger.get_put_same _ _ _ _ _⟩

/-- C13 amended, on a ledger that holds another key. -/
theorem C13_changeGadgetOwner_absent_key_witness :
    "GADGET2" ≠ "" ∧
    Ledger.get { State := [("GADGET1", "v")], History := [] } "GADGET2" = none ∧
    (refJson.Unmarshal "" Gadget.zero).1 = Gadget.zero ∧
    (Invoke refJson refTime (memStub "tx1" ⟨1, 0⟩)
        { State := [("GADGET1", "v")], History := [] }
        "changeGadgetOwner" ["GADGET2", "Asha"]).1 = shim.Success none ∧
    (Invoke refJson refTime (memStub "tx1" ⟨1, 0⟩)
        { State := [("GADGET1", "v")], History := [] }
        "changeGadgetOwner" ["GADGET2", "Asha"]).2.get "GADGET2"
      = some (refJson.Marshal ⟨"", "", "", "Asha"⟩) :=
  ⟨by decide, by decide, by decide,
   C13_changeGadgetOwner_absent_key refJson refTime "tx1" ⟨1, 0⟩
     { State := [("GADGET1", "v")], History := [] } "GADGET2" "Asha" (by decide) (by decide)
     (by decide)⟩

/-! ## Reads: queryGadget and the frame of the three queries -/

/-- C14: behind any stub, for every argument list of length 1 queryGadget
returns success whatever error the ledger read reports, and for every argument
list of length 5 createGadget returns success whatever error the ledger write
reports. -/
theorem C14_ledger_errors_swallowed {σ : Type} (J : Json) (T : Int → Int → String)
    (stub : ChaincodeStub σ) (s : σ) (args : List String) :
    (args.length = 1 →
      (Invoke J T stub s "queryGadget" args).1
        = shim.Success (stub.GetState s (args.getD 0 "")).1 ∧
      (Invoke J T stub s "queryGadget" args).1.Status = shim.OK) ∧
    (args.length = 5 →
      (Invoke J T stub s "createGadget" args).1 = shim.Success none ∧
      (Invoke J T stub s "createGadget" args).1.Status = shim.OK) := by
  refine ⟨?_, ?_⟩
  · intro h
    have hr : (Invoke J T stub s "queryGadget" args).1
        = shim.Success (stub.GetState s (args.getD 0 "")).1 := by
      simp [Invoke_queryGadget, queryGadget, h]
    exact ⟨hr, by rw [hr]; rfl⟩
  · intro h
    have hr : (Invoke J T stub s "createGadget" args).1 = shim.Success none := by
      simp [Invoke_createGadget, createGadget, h]
    exact ⟨hr, by rw [hr]; rfl⟩

/-- C14, over a ledger whose read and write both fail. -/
theorem C14_ledger_errors_swallowed_witness :
    ["GADGET1"].length = 1 ∧
    ((faultyStub (some "read failed") (some "write failed") none).GetState
        Ledger.empty "GADGET1").2 = some "read failed" ∧
    (Invoke refJson refTime (faultyStub (some "read failed") (some "write failed") none)
        Ledger.empty "queryGadget" ["GADGET1"]).1.Status = shim.OK ∧
    ["GADGET1", "MI", "MI20", "Gray", "Jack"].length = 5 ∧
    ((faultyStub (some "read failed") (some "write failed") none).PutState
        Ledger.empty "GADGET1" (refJson.Marshal ⟨"MI", "MI20", "Gray", "Jack"⟩)).2
      = some "write failed" ∧
    (Invoke refJson refTime (faultyStub (some "read failed") (some "write failed") none)
        Ledger.empty "createGadget" ["GADGET1", "MI", "MI20", "Gray", "Jack"]).1.Status
      = shim.OK :=
  ⟨by decide, by decide,
   ((C14_ledger_errors_swallowed refJson refTime
     (faultyStub (some "read failed") (some "write failed") none) Ledger.empty
     ["GADGET1"]).1 (by decide)).2,
   by decide, by decide,
   ((C14_ledger_errors_swallowed refJson refTime
     (faultyStub (some "read failed") (some "write failed") none) Ledger.empty
     ["GADGET1", "MI", "MI20", "Gray", "Jack"]).2 (by decide)).2⟩

/-- C15: on the in-memory ledger queryGadget on [key] returns success with the
raw current value of the key as payload; when the key has no current value the
payload is nil, which has no bytes, and the response is still a success. -/
theorem C15_queryGadget_raw_value (J : Json) (T : Int → Int → String)
    (txId : String) (ts : Timestamp) (l : Ledger) (key : String) :
    Invoke J T (memStub txId ts) l "queryGadget" [key] = (shim.Success (l.get key), l) ∧
    (∀ v, l.get key = some v →
      (Invoke J T (memStub txId ts) l "queryGadget" [key]).1 = shim.Success (some v)) ∧
    (l.get key = none →
      (Invoke J T (memStub txId ts) l "queryGadget" [key]).1.Status = shim.OK ∧
      bytesOf (Invoke J T (memStub txId ts) l "queryGadget" [key]).1.Payload = "") := by
  have hr : Invoke J T (memStub txId ts) l "queryGadget" [key]
      = (shim.Success (l.get key), l) := by
    simp [Invoke_queryGadget, queryGadget, memStub]
  refine ⟨hr, ?_, ?_⟩
  · intro v hv
    rw [hr, hv]
  · intro hn
    rw [hr, hn]
    exact ⟨rfl, rfl⟩

/-- C15, at a key holding a value that is not JSON and at an absent key. -/
theorem C15_queryGadget_raw_value_witness :
    Ledger.get { State := [("GADGET1", "raw bytes")], History := [] } "GADGET1"
      = some "raw bytes" ∧
    (Invoke refJson refTime (memStub "tx1" ⟨1, 0⟩)
        { State := [("GADGET1", "raw bytes")], History := [] } "queryGadget" ["GADGET1"]).1
      = shim.Success (some "raw bytes") ∧
    Ledger.get { State := [("GADGET1", "raw bytes")], History := [] } "GADGET2" = none ∧
    bytesOf (Invoke refJson refTime (memStub "tx1" ⟨1, 0⟩)
        { State := [("GADGET1", "raw bytes")], History := [] } "queryGadget" ["GADGET2"]).1.Payload
      = "" :=
  ⟨by decide,
   (C15_queryGadget_raw_value refJson refTime "tx1" ⟨1, 0⟩
     { State := [("GADGET1", "raw bytes")], History := [] } "GADGET1").2.1 "raw bytes"
     (by decide),
   by decide,
   ((C15_queryGadget_raw_value refJson refTime "tx1" ⟨1, 0⟩
     { State := [("GADGET1", "raw bytes")], History := [] } "GADGET2").2.2 (by decide)).2⟩

/-- C16: behind any stub, for every change-log sequence delivered without
error, getGadgetHistory on [key] returns success with one rendered entry per
ledger entry, in the order delivered; an entry with IsDelete true is rendered
with its TxId, Value null and IsDelete "true", an entry with IsDelete false with
its TxId, its raw value verbatim and IsDelete "false"; for the empty sequence
the payload is "[]". -/
theorem C16_getGadgetHistory_payload {σ : Type} (J : Json) (T : Int → Int → String)
    (stub : ChaincodeStub σ) (s : σ) (key : String) (mods : List KeyModification)
    (h : stub.GetHistoryForKey s key = .ok (mods.map .ok)) :
    Invoke J T stub s "getGadgetHistory" [key]
      = (shim.Success (some ("[" ++ ",".intercalate (mods.map (renderHistory T)) ++ "]")), s) ∧
    (mods = [] →
      Invoke J T stub s "getGadgetHistory" [key] = (shim.Success (some "[]"), s)) ∧
    (∀ m ∈ mods, m.IsDelete = true →
      renderHistory T m = "\x7b\"TxId\":\"" ++ m.TxId ++ "\", \"Value\":null, \"Timestamp\":\""
        ++ T m.Timestamp.Seconds m.Timestamp.Nanos ++ "\", \"IsDelete\":\"true\"\x7d") ∧
    (∀ m ∈ mods, m.IsDelete = false →
      renderHistory T m = "\x7b\"TxId\":\"" ++ m.TxId ++ "\", \"Value\":" ++ m.Value
        ++ ", \"Timestamp\":\"" ++ T m.Timestamp.Seconds m.Timestamp.Nanos
        ++ "\", \"IsDelete\":\"false\"\x7d") := by
  have hp := getGadgetHistory_payload T stub s key [] mods h
  refine ⟨?_, ?_, ?_, ?_⟩
  · rw [Invoke_getGadgetHistory, hp, encodeArray]
  · intro hm
    subst hm
    rw [Invoke_getGadgetHistory, hp]
    rfl
  · intro m _ hd
    apply String.ext
    simp [renderHistory, FormatBool, hd]
  · intro m _ hd
    apply String.ext
    simp [renderHistory, FormatBool, hd]

/-- C16, on a change log that is not in time order and ends with a deletion. -/
theorem C16_getGadgetHistory_payload_witness :
    (memStub "tx9" ⟨9, 0⟩).GetHistoryForKey
        { State := [], History := [("GADGET1", ⟨"b", "7", ⟨6, 0⟩, false⟩),
            ("GADGET2", ⟨"x", "8", ⟨1, 0⟩, false⟩), ("GADGET1", ⟨"a", "", ⟨5, 0⟩, true⟩)] }
        "GADGET1"
      = .ok ([⟨"b", "7", ⟨6, 0⟩, false⟩, ⟨"a", "", ⟨5, 0⟩, true⟩].map .ok) ∧
    Invoke refJson refTime (memStub "tx9" ⟨9, 0⟩)
        { State := [], History := [("GADGET1", ⟨"b", "7", ⟨6, 0⟩, false⟩),
            ("GADGET2", ⟨"x", "8", ⟨1, 0⟩, false⟩), ("GADGET1", ⟨"a", "", ⟨5, 0⟩, true⟩)] }
        "getGadgetHistory" ["GADGET1"]
      = (shim.Success (some ("[" ++ ",".intercalate
            ([⟨"b", "7", ⟨6, 0⟩, false⟩, ⟨"a", "", ⟨5, 0⟩, true⟩].map (renderHistory refTime))
            ++ "]")),
          { State := [], History := [("GADGET1", ⟨"b", "7", ⟨6, 0⟩, false⟩),
            ("GADGET2", ⟨"x", "8", ⟨1, 0⟩, false⟩), ("GADGET1", ⟨"a", "", ⟨5, 0⟩, true⟩)] }) :=
  ⟨rfl,
   (C16_getGadgetHistory_payload refJson refTime (memStub "tx9" ⟨9, 0⟩)
     { State := [], History := [("GADGET1", ⟨"b", "7", ⟨6, 0⟩, false⟩),
         ("GADGET2", ⟨"x", "8", ⟨1, 0⟩, false⟩), ("GADGET1", ⟨"a", "", ⟨5, 0⟩, true⟩)] }
     "GADGET1" [⟨"b", "7", ⟨6, 0⟩, false⟩, ⟨"a", "", ⟨5, 0⟩, true⟩] rfl).1⟩

theorem Ledger.put_ne (txId : String) (ts : Timestamp) (l : Ledger) (key value : String) :
    l.put txId ts key value ≠ l := by
  intro h
  have h2 := congrArg (fun x => x.History.length) h
  simp [Ledger.put] at h2

theorem Ledger.del_ne (txId : String) (ts : Timestamp) (l : Ledger) (key : String) :
    l.del txId ts key ≠ l := by
  intro h
  have h2 := congrArg (fun x => x.History.length) h
  simp [Ledger.del] at h2

theorem memStub_PutState_ne (txId : String) (ts : Timestamp) (l : Ledger) (key value : String)
    (h : ((memStub txId ts).PutState l key value).2 = none) :
    ((memStub txId ts).PutState l key value).1 ≠ l := by
  by_cases hk : key = ""
  · simp [memStub, hk] at h
  · simp only [memStub, if_neg hk]
    exact Ledger.put_ne _ _ _ _ _

theorem memStub_PutState_get_other (txId : String) (ts : Timestamp) (l : Ledger)
    (key value k2 : String) (h : k2 ≠ key) :
    ((memStub txId ts).PutState l key value).1.get k2 = l.get k2 := by
  by_cases hk : key = ""
  · simp only [memStub, if_pos hk]
  · simp only [memStub, if_neg hk]
    exact Ledger.get_put_other _ _ _ _ _ _ h

/-- C17: behind any stub, for every state and argument list, queryGadget,
queryAllGadgets and getGadgetHistory return the ledger state they were given,
on success and on error alike; on the in-memory ledger every put the ledger
carries out and every delete changes the state (the change log grows), so none
is issued. -/
theorem C17_queries_leave_ledger {σ : Type} (J : Json) (T : Int → Int → String)
    (stub : ChaincodeStub σ) (s : σ) (args : List String)
    (txId : String) (ts : Timestamp) (l : Ledger) (key value : String) :
    (Invoke J T stub s "queryGadget" args).2 = s ∧
    (Invoke J T stub s "queryAllGadgets" args).2 = s ∧
    (Invoke J T stub s "getGadgetHistory" args).2 = s ∧
    (((memStub txId ts).PutState l key value).2 = none →
      ((memStub txId ts).PutState l key value).1 ≠ l) ∧
    ((memStub txId ts).DelState l key).1 ≠ l := by
  refine ⟨?_, ?_, ?_, memStub_PutState_ne _ _ _ _ _, Ledger.del_ne _ _ _ _⟩
  · rw [Invoke_queryGadget, queryGadget]
    split <;> rfl
  · rw [Invoke_queryAllGadgets, queryAllGadgets]
    split
    · rfl
    · split <;> rfl
  · rw [Invoke_getGadgetHistory, getGadgetHistory]
    split
    · rfl
    · simp only []
      split
      · rfl
      · split <;> rfl

/-- C17, at a put the in-memory ledger carries out. -/
theorem C17_queries_leave_ledger_witness :
    ((memStub "tx1" ⟨1, 0⟩).PutState Ledger.empty "GADGET1" "v").2 = none ∧
    ((memStub "tx1" ⟨1, 0⟩).PutState Ledger.empty "GADGET1" "v").1 ≠ Ledger.empty ∧
    (Invoke refJson refTime (memStub "tx1" ⟨1, 0⟩) Ledger.empty "getGadgetHistory" []).2
      = Ledger.empty :=
  have h := C17_queries_leave_ledger refJson refTime (memStub "tx1" ⟨1, 0⟩) Ledger.empty []
    "tx1" ⟨1, 0⟩ Ledger.empty "GADGET1" "v"
  ⟨by decide, h.2.2.2.1 (by decide), h.2.2.1⟩

/-! ## Writes: the frame of createGadget, changeGadgetOwner and deleteGadget -/

theorem getD_zero_ne_of_head (args : List String) (k2 : String)
    (h : args.head? ≠ some k2) (hne : args ≠ []) : k2 ≠ args.getD 0 "" := by
  cases args with
  | nil => exact absurd rfl hne
  | cons a rest =>
    intro e
    apply h
    simp [e]

/-- C18: on the in-memory ledger, for every state and argument list,
createGadget, changeGadgetOwner and deleteGadget leave the current value of
every key other than args[0] as it was, and with a wrong argument count they
leave the whole ledger as it was. -/
theorem C18_writes_touch_first_key_only (J : Json) (T : Int → Int → String)
    (txId : String) (ts : Timestamp) (l : Ledger) (args : List String) (k2 : String) :
    (args.head? ≠ some k2 →
      (Invoke J T (memStub txId ts) l "createGadget" args).2.get k2 = l.get k2 ∧
      (Invoke J T (memStub txId ts) l "changeGadgetOwner" args).2.get k2 = l.get k2 ∧
      (Invoke J T (memStub txId ts) l "deleteGadget" args).2.get k2 = l.get k2) ∧
    (args.length ≠ 5 → (Invoke J T (memStub txId ts) l "createGadget" args).2 = l) ∧
    (args.length ≠ 2 → (Invoke J T (memStub txId ts) l "changeGadgetOwner" args).2 = l) ∧
    (args.length ≠ 1 → (Invoke J T (memStub txId ts) l "deleteGadget" args).2 = l) := by
  refine ⟨?_, ?_, ?_, ?_⟩
  · intro h
    refine ⟨?_, ?_, ?_⟩
    · rw [Invoke_createGadget, createGadget]
      split
      · rfl
      · rename_i hlen
        have hne : args ≠ [] := by
          intro e
          subst e
          simp at hlen
        exact memStub_PutState_get_other _ _ _ _ _ _ (getD_zero_ne_of_head args k2 h hne)
    · rw [Invoke_changeGadgetOwner, changeGadgetOwner]
      split
      · rfl
      · rename_i hlen
        have hne : args ≠ [] := by
          intro e
          subst e
          simp at hlen
        exact memStub_PutState_get_other _ _ _ _ _ _ (getD_zero_ne_of_head args k2 h hne)
    · rw [Invoke_deleteGadget]
      by_cases hlen : args.length ≠ 1
      · simp only [deleteGadget, if_pos hlen]
      · match args, hlen, h with
        | [key], _, h =>
          have hk : k2 ≠ key := fun e => h (by simp [e])
          rw [deleteGadget_cases]
          split
          · rfl
          · split
            · rfl
            · split
              · rfl
              · split
                · exact Ledger.get_del_other _ _ _ _ _ hk
                · exact Ledger.get_del_other _ _ _ _ _ hk
        | [], hlen, _ => exact absurd (by simp) hlen
        | _ :: _ :: _, hlen, _ => exact absurd (by simp) hlen
  · intro hlen
    simp only [Invoke_createGadget, createGadget, if_pos hlen]
  · intro hlen
    simp only [Invoke_changeGadgetOwner, changeGadgetOwner, if_pos hlen]
  · intro hlen
    simp only [Invoke_deleteGadget, deleteGadget, if_pos hlen]

/-- C18, at another key of a ledger and at an empty argument list. -/
theorem C18_writes_touch_first_key_only_witness :
    ["GADGET1", "MI", "MI20", "Gray", "Jack"].head? ≠ some "GADGET2" ∧
    (Invoke refJson refTime (memStub "tx1" ⟨1, 0⟩)
        { State := [("GADGET2", "two"), ("GADGET1", "one")], History := [] }
        "createGadget" ["GADGET1", "MI", "MI20", "Gray", "Jack"]).2.get "GADGET2"
      = some "two" ∧
    ([] : List String).length ≠ 1 ∧
    (Invoke refJson refTime (memStub "tx1" ⟨1, 0⟩)
        { State := [("GADGET2", "two"), ("GADGET1", "one")], History := [] }
        "deleteGadget" []).2
      = { State := [("GADGET2", "two"), ("GADGET1", "one")], History := [] } :=
  ⟨by decide,
   ((C18_writes_touch_first_key_only refJson refTime "tx1" ⟨1, 0⟩
     { State := [("GADGET2", "two"), ("GADGET1", "one")], History := [] }
     ["GADGET1", "MI", "MI20", "Gray", "Jack"] "GADGET2").1 (by decide)).1,
   by decide,
   (C18_writes_touch_first_key_only refJson refTime "tx1" ⟨1, 0⟩
     { State := [("GADGET2", "two"), ("GADGET1", "one")], History := [] }
     [] "GADGET2").2.2.2 (by decide)⟩

/-! ## Seeding against the scanned range -/

theorem initLedger_empty_range (J : Json) (txId : String) (ts : Timestamp) :
    (initLedger J (memStub txId ts) Ledger.empty).2.range "GADGET0" "GADGET999"
      = [⟨"GADGET0", J.Marshal ⟨"Samsung", "GalS10", "blue", "Shyam"⟩⟩,
         ⟨"GADGET1", J.Marshal ⟨"Apple", "Ipod", "black", "Sravan"⟩⟩,
         ⟨"GADGET2", J.Marshal ⟨"Apple", "AirMac", "Silver", "Pavan"⟩⟩,
         ⟨"GADGET3", J.Marshal ⟨"Sony", "Bravia10", "Black", "Karthick"⟩⟩,
         ⟨"GADGET4", J.Marshal ⟨"SkullCandy", "EarPhones", "black", "Jhon"⟩⟩,
         ⟨"GADGET5", J.Marshal ⟨"Nokia", "N72", "Black", "Lalitha"⟩⟩,
         ⟨"GADGET6", J.Marshal ⟨"MI", "MI20", "Gray", "Jack"⟩⟩,
         ⟨"GADGET7", J.Marshal ⟨"Samsung", "GalS10Plus", "DarkBlack", "Akram"⟩⟩] := by
  rw [initLedger_memStub]
  simp [Ledger.range, Ledger.put, Ledger.empty, sortByKey, insertKey, keyLt, keyLe, ltChars]

/-- C19: on the in-memory ledger, whose range query is lexicographic on the
keys, initLedger on the empty ledger followed by queryAllGadgets returns
exactly eight items, with the keys GADGET0, GADGET1, …, GADGET7 in that order,
each Record the serialization of the sample record seeded under the key; every
key the seeding generates lies in the scanned interval. -/
theorem C19_seed_then_queryAllGadgets (J : Json) (T : Int → Int → String)
    (tx1 tx2 : String) (ts1 ts2 : Timestamp) (args args2 : List String) :
    (Invoke J T (memStub tx2 ts2)
        (Invoke J T (memStub tx1 ts1) Ledger.empty "initLedger" args).2
        "queryAllGadgets" args2).1
      = shim.Success (some ("[" ++ ",".intercalate
          [renderKV ⟨"GADGET0", J.Marshal ⟨"Samsung", "GalS10", "blue", "Shyam"⟩⟩,
           renderKV ⟨"GADGET1", J.Marshal ⟨"Apple", "Ipod", "black", "Sravan"⟩⟩,
           renderKV ⟨"GADGET2", J.Marshal ⟨"Apple", "AirMac", "Silver", "Pavan"⟩⟩,
           renderKV ⟨"GADGET3", J.Marshal ⟨"Sony", "Bravia10", "Black", "Karthick"⟩⟩,
           renderKV ⟨"GADGET4", J.Marshal ⟨"SkullCandy", "EarPhones", "black", "Jhon"⟩⟩,
           renderKV ⟨"GADGET5", J.Marshal ⟨"Nokia", "N72", "Black", "Lalitha"⟩⟩,
           renderKV ⟨"GADGET6", J.Marshal ⟨"MI", "MI20", "Gray", "Jack"⟩⟩,
           renderKV ⟨"GADGET7", J.Marshal ⟨"Samsung", "GalS10Plus", "DarkBlack", "Akram"⟩⟩]
          ++ "]")) ∧
    (List.range gadgets.length).all (fun i => inScanRange ("GADGET" ++ Itoa i)) = true := by
  refine ⟨?_, by decide⟩
  have hr : (memStub tx2 ts2).GetStateByRange (initLedger J (memStub tx1 ts1) Ledger.empty).2
      "GADGET0" "GADGET999"
      = .ok (([⟨"GADGET0", J.Marshal ⟨"Samsung", "GalS10", "blue", "Shyam"⟩⟩,
         ⟨"GADGET1", J.Marshal ⟨"Apple", "Ipod", "black", "Sravan"⟩⟩,
         ⟨"GADGET2", J.Marshal ⟨"Apple", "AirMac", "Silver", "Pavan"⟩⟩,
         ⟨"GADGET3", J.Marshal ⟨"Sony", "Bravia10", "Black", "Karthick"⟩⟩,
         ⟨"GADGET4", J.Marshal ⟨"SkullCandy", "EarPhones", "black", "Jhon"⟩⟩,
         ⟨"GADGET5", J.Marshal ⟨"Nokia", "N72", "Black", "Lalitha"⟩⟩,
         ⟨"GADGET6", J.Marshal ⟨"MI", "MI20", "Gray", "Jack"⟩⟩,
         ⟨"GADGET7", J.Marshal ⟨"Samsung", "GalS10Plus", "DarkBlack", "Akram"⟩⟩] :
          List KV).map .ok) := by
    show Except.ok (List.map Except.ok
      ((initLedger J (memStub tx1 ts1) Ledger.empty).2.range "GADGET0" "GADGET999")) = _
    rw [initLedger_empty_range]
  rw [Invoke_initLedger, Invoke_queryAllGadgets, queryAllGadgets_payload _ _ _ hr, encodeArray]
  rfl

/-! ## Keys outside the scanned range -/

theorem ltChars_of_not_startsWith (p k a b : List Char) (h : startsWith p k = false) :
    ltChars k (p ++ a) = ltChars k (p ++ b) := by
  induction p generalizing k with
  | nil => simp [startsWith] at h
  | cons x xs ih =>
    cases k with
    | nil => rfl
    | cons c cs =>
      rw [List.cons_append, List.cons_append]
      simp only [ltChars]
      by_cases e : c = x
      · subst e
        have h2 : startsWith xs cs = false := by simpa [startsWith] using h
        rw [ih cs h2]
      · simp [e]

theorem inScanRange_of_not_startsWith (k : String)
    (h : startsWith "GADGET".data k.data = false) : inScanRange k = false := by
  have h3 : ltChars k.data "GADGET0".data = ltChars k.data "GADGET999".data :=
    ltChars_of_not_startsWith "GADGET".data k.data "0".data "999".data h
  unfold inScanRange keyLe keyLt
  rw [h3]
  cases ltChars k.data "GADGET999".data <;> rfl

/-- C20: on the in-memory ledger, whose range query is lexicographic with an
exclusive end bound, for the key "GADGET999" and for every key that does not
start with "GADGET", createGadget succeeds and, the key not being the empty one
that the ledger refuses, queryGadget returns the created record, yet no item
that queryAllGadgets lists afterwards has that key. -/
theorem C20_keys_outside_scan (J : Json) (T : Int → Int → String)
    (tx1 tx2 tx3 : String) (ts1 ts2 ts3 : Timestamp) (l : Ledger)
    (key make model colour owner : String)
    (hk : key = "GADGET999" ∨ startsWith "GADGET".data key.data = false)
    (hJ : J.RoundTrips ⟨make, model, colour, owner⟩) :
    (Invoke J T (memStub tx1 ts1) l "createGadget" [key, make, model, colour, owner]).1
      = shim.Success none ∧
    (key ≠ "" → ∃ payload,
      (Invoke J T (memStub tx2 ts2)
          (Invoke J T (memStub tx1 ts1) l "createGadget" [key, make, model, colour, owner]).2
          "queryGadget" [key]).1 = shim.Success (some payload) ∧
      J.Unmarshal payload Gadget.zero = (⟨make, model, colour, owner⟩, none)) ∧
    (∃ items : List KV,
      (Invoke J T (memStub tx3 ts3)
          (Invoke J T (memStub tx1 ts1) l "createGadget" [key, make, model, colour, owner]).2
          "queryAllGadgets" []).1
        = shim.Success (some ("[" ++ ",".intercalate (items.map renderKV) ++ "]")) ∧
      (memStub tx3 ts3).GetStateByRange
          (Invoke J T (memStub tx1 ts1) l "createGadget" [key, make, model, colour, owner]).2
          "GADGET0" "GADGET999" = .ok (items.map .ok) ∧
      ∀ kv ∈ items, kv.Key ≠ key) := by
  have hout : inScanRange key = false := by
    rcases hk with hk | hk
    · subst hk
      decide
    · exact inScanRange_of_not_startsWith key hk
  have h1 : ∃ l2, Invoke J T (memStub tx1 ts1) l "createGadget"
        [key, make, model, colour, owner] = (shim.Success none, l2) ∧
      (key ≠ "" → l2.get key = some (J.Marshal ⟨make, model, colour, owner⟩)) := by
    by_cases hke : key = ""
    · exact ⟨l, by simp [Invoke_createGadget, createGadget, memStub, hke],
        fun hne => absurd hke hne⟩
    · exact ⟨l.put tx1 ts1 key (J.Marshal ⟨make, model, colour, owner⟩),
        by simp [Invoke_createGadget, createGadget, memStub, hke],
        fun _ => Ledger.get_put_same _ _ _ _ _⟩
  obtain ⟨l2, h1, hget⟩ := h1
  rw [h1]
  refine ⟨rfl, fun hne => ⟨J.Marshal ⟨make, model, colour, owner⟩, ?_, hJ⟩,
    l2.range "GADGET0" "GADGET999", ?_, rfl, ?_⟩
  · simp [Invoke_queryGadget, queryGadget, memStub, hget hne]
  · rw [Invoke_queryAllGadgets, queryAllGadgets_payload (memStub tx3 ts3) _ _ rfl, encodeArray]
  · intro kv hkv e
    obtain ⟨k, v⟩ := kv
    have hin := ((Ledger.mem_range _ _ _ k v).1 hkv).2
    have e2 : k = key := e
    subst e2
    have : inScanRange k = true := by simp [inScanRange, hin.1, hin.2]
    rw [hout] at this
    cases this

/-- C20, at the keys "PHONE1" and "GADGET999" on a seeded ledger. -/
theorem C20_keys_outside_scan_witness :
    ("PHONE1" = "GADGET999" ∨ startsWith "GADGET".data "PHONE1".data = false) ∧
    ("GADGET999" = "GADGET999" ∨ startsWith "GADGET".data "GADGET999".data = false) ∧
    refJson.RoundTrips ⟨"Nokia", "N72", "Black", "Lalitha"⟩ ∧
    (∃ items : List KV,
      (Invoke refJson refTime (memStub "tx3" ⟨3, 0⟩)
          (Invoke refJson refTime (memStub "tx1" ⟨1, 0⟩)
            (Invoke refJson refTime (memStub "tx0" ⟨0, 0⟩) Ledger.empty "initLedger" []).2
            "createGadget" ["PHONE1", "Nokia", "N72", "Black", "Lalitha"]).2
          "queryAllGadgets" []).1
        = shim.Success (some ("[" ++ ",".intercalate (items.map renderKV) ++ "]")) ∧
      (memStub "tx3" ⟨3, 0⟩).GetStateByRange
          (Invoke refJson refTime (memStub "tx1" ⟨1, 0⟩)
            (Invoke refJson refTime (memStub "tx0" ⟨0, 0⟩) Ledger.empty "initLedger" []).2
            "createGadget" ["PHONE1", "Nokia", "N72", "Black", "Lalitha"]).2
          "GADGET0" "GADGET999" = .ok (items.map .ok) ∧
      ∀ kv ∈ items, kv.Key ≠ "PHONE1") ∧
    (∃ items : List KV,
      (Invoke refJson refTime (memStub "tx3" ⟨3, 0⟩)
          (Invoke refJson refTime (memStub "tx1" ⟨1, 0⟩)
            (Invoke refJson refTime (memStub "tx0" ⟨0, 0⟩) Ledger.empty "initLedger" []).2
            "createGadget" ["GADGET999", "Nokia", "N72", "Black", "Lalitha"]).2
          "queryAllGadgets" []).1
        = shim.Success (some ("[" ++ ",".intercalate (items.map renderKV) ++ "]")) ∧
      (memStub "tx3" ⟨3, 0⟩).GetStateByRange
          (Invoke refJson refTime (memStub "tx1" ⟨1, 0⟩)
            (Invoke refJson refTime (memStub "tx0" ⟨0, 0⟩) Ledger.empty "initLedger" []).2
            "createGadget" ["GADGET999", "Nokia", "N72", "Black", "Lalitha"]).2
          "GADGET0" "GADGET999" = .ok (items.map .ok) ∧
      ∀ kv ∈ items, kv.Key ≠ "GADGET999") ∧
    "PHONE1" ≠ "" ∧
    (∃ payload,
      (Invoke refJson refTime (memStub "tx2" ⟨2, 0⟩)
          (Invoke refJson refTime (memStub "tx1" ⟨1, 0⟩)
            (Invoke refJson refTime (memStub "tx0" ⟨0, 0⟩) Ledger.empty "initLedger" []).2
            "createGadget" ["PHONE1", "Nokia", "N72", "Black", "Lalitha"]).2
          "queryGadget" ["PHONE1"]).1 = shim.Success (some payload) ∧
      refJson.Unmarshal payload Gadget.zero = (⟨"Nokia", "N72", "Black", "Lalitha"⟩, none)) ∧
    "GADGET999" ≠ "" ∧
    (∃ payload,
      (Invoke refJson refTime (memStub "tx2" ⟨2, 0⟩)
          (Invoke refJson refTime (memStub "tx1" ⟨1, 0⟩)
            (Invoke refJson refTime (memStub "tx0" ⟨0, 0⟩) Ledger.empty "initLedger" []).2
            "createGadget" ["GADGET999", "Nokia", "N72", "Black", "Lalitha"]).2
          "queryGadget" ["GADGET999"]).1 = shim.Success (some payload) ∧
      refJson.Unmarshal payload Gadget.zero = (⟨"Nokia", "N72", "Black", "Lalitha"⟩, none)) :=
  ⟨by decide, by decide, by decide,
   (C20_keys_outside_scan refJson refTime "tx1" "tx2" "tx3" ⟨1, 0⟩ ⟨2, 0⟩ ⟨3, 0⟩
     (Invoke refJson refTime (memStub "tx0" ⟨0, 0⟩) Ledger.empty "initLedger" []).2
     "PHONE1" "Nokia" "N72" "Black" "Lalitha" (by decide) (by decide)).2.2,
   (C20_keys_outside_scan refJson refTime "tx1" "tx2" "tx3" ⟨1, 0⟩ ⟨2, 0⟩ ⟨3, 0⟩
     (Invoke refJson refTime (memStub "tx0" ⟨0, 0⟩) Ledger.empty "initLedger" []).2
     "GADGET999" "Nokia" "N72" "Black" "Lalitha" (by decide) (by decide)).2.2,
   by decide,
   (C20_keys_outside_scan refJson refTime "tx1" "tx2" "tx3" ⟨1, 0⟩ ⟨2, 0⟩ ⟨3, 0⟩
     (Invoke refJson refTime (memStub "tx0" ⟨0, 0⟩) Ledger.empty "initLedger" []).2
     "PHONE1" "Nokia" "N72" "Black" "Lalitha" (by decide) (by decide)).2.1 (by decide),
   by decide,
   (C20_keys_outside_scan refJson refTime "tx1" "tx2" "tx3" ⟨1, 0⟩ ⟨2, 0⟩ ⟨3, 0⟩
     (Invoke refJson refTime (memStub "tx0" ⟨0, 0⟩) Ledger.empty "initLedger" []).2
     "GADGET999" "Nokia" "N72" "Black" "Lalitha" (by decide) (by decide)).2.1 (by decide)⟩

end WiproGadget
